import Mathlib

/-! Verification of the FinSynth revenue-forecasting backend.

The deterministic core of the repository consists of two revenue projectors,
`LargeCustomerCalculator.calculate` (backend/services/calculators/large_customer_calculator.py)
and `SMBCalculator.calculate` (backend/services/calculators/smb_calculator.py),
plus the orchestration function `_execute_calculation` and the endpoint
`create_forecast` (backend/routers/forecast.py, identical logic in both copies of
the router) together with `KnowledgeService.get_assumptions` and
`KnowledgeService.update_assumptions` (app/backend/services/knowledge_service.py).

The Python code computes with IEEE doubles; the embedding uses exact rational
arithmetic (`ℚ`), the conventional idealisation.  Python's `round(x, 2)`
(round to two decimal places, ties to even) is modelled exactly by `round2`
below.  Python's `x / 0` raises; Lean's `x / 0 = 0`.  The only divisions
performed by the code are by `cac` (positive in every profile considered) and
by the literals `100`, `1000000`, so the two semantics agree on every run
analysed here.
-/

namespace FinSynth

section

attribute [local semireducible] Rat.add Rat.mul Rat.sub Rat.inv

/-- Round half to even to an integer, exactly as Python's builtin `round`
behaves on exactly-representable values.  The comparisons are phrased on
integers so that the function evaluates by kernel reduction: writing
`f = ⌊x⌋`, the fractional part `x - f = (x.num - f * x.den) / x.den`
compares to `1/2` exactly as `2 * (x.num - f * x.den)` compares to `x.den`
(the denominator is positive).  `pyRoundInt_eq_cases` below restates the
definition in terms of `⌊x⌋` and `Int.fract`. -/
def pyRoundInt (x : ℚ) : ℤ :=
  if 2 * (x.num - Rat.floor x * (x.den : ℤ)) < (x.den : ℤ) then Rat.floor x
  else if (x.den : ℤ) < 2 * (x.num - Rat.floor x * (x.den : ℤ)) then Rat.floor x + 1
  else if Rat.floor x % 2 = 0 then Rat.floor x else Rat.floor x + 1

/-- Python's `round(x, 2)`: round to two decimal places, ties to even. -/
def round2 (x : ℚ) : ℚ := (pyRoundInt (100 * x) : ℚ) / 100

theorem ratFloor_eq_floor (x : ℚ) : (Rat.floor x : ℤ) = ⌊x⌋ :=
  (Rat.floor_def' x).trans Rat.floor_def.symm

theorem pyRoundInt_eq_cases (x : ℚ) :
    pyRoundInt x = if Int.fract x < 1/2 then ⌊x⌋
      else if 1/2 < Int.fract x then ⌊x⌋ + 1
      else if ⌊x⌋ % 2 = 0 then ⌊x⌋ else ⌊x⌋ + 1 := by
  have hden : (0:ℚ) < (x.den : ℚ) := by exact_mod_cast x.pos
  have hnum : (x.num : ℚ) = x * (x.den : ℚ) := (div_eq_iff hden.ne').mp (Rat.num_div_den x)
  have key : ((2 * (x.num - ⌊x⌋ * (x.den : ℤ)) : ℤ) : ℚ)
      = 2 * Int.fract x * (x.den : ℚ) := by
    rw [Int.fract]
    push_cast
    rw [hnum]
    ring
  have h1 : (2 * (x.num - ⌊x⌋ * (x.den : ℤ)) < (x.den : ℤ)) ↔ Int.fract x < 1/2 := by
    constructor
    · intro h
      have hq : ((2 * (x.num - ⌊x⌋ * (x.den : ℤ)) : ℤ) : ℚ) < ((x.den : ℤ) : ℚ) := by
        exact_mod_cast h
      rw [key] at hq
      have hq2 : Int.fract x * (x.den : ℚ) < (1/2) * (x.den : ℚ) := by
        push_cast at hq
        linarith
      exact (mul_lt_mul_right hden).mp hq2
    · intro h
      have hq2 : Int.fract x * (x.den : ℚ) < (1/2) * (x.den : ℚ) := (mul_lt_mul_right hden).mpr h
      have hq : ((2 * (x.num - ⌊x⌋ * (x.den : ℤ)) : ℤ) : ℚ) < ((x.den : ℤ) : ℚ) := by
        rw [key]
        push_cast
        linarith
      exact_mod_cast hq
  have h2 : ((x.den : ℤ) < 2 * (x.num - ⌊x⌋ * (x.den : ℤ))) ↔ 1/2 < Int.fract x := by
    constructor
    · intro h
      have hq : ((x.den : ℤ) : ℚ) < ((2 * (x.num - ⌊x⌋ * (x.den : ℤ)) : ℤ) : ℚ) := by
        exact_mod_cast h
      rw [key] at hq
      have hq2 : (1/2) * (x.den : ℚ) < Int.fract x * (x.den : ℚ) := by
        push_cast at hq
        linarith
      exact (mul_lt_mul_right hden).mp hq2
    · intro h
      have hq2 : (1/2) * (x.den : ℚ) < Int.fract x * (x.den : ℚ) := (mul_lt_mul_right hden).mpr h
      have hq : ((x.den : ℤ) : ℚ) < ((2 * (x.num - ⌊x⌋ * (x.den : ℤ)) : ℤ) : ℚ) := by
        rw [key]
        push_cast
        linarith
      exact_mod_cast hq
  unfold pyRoundInt
  rw [ratFloor_eq_floor]
  by_cases hc1 : Int.fract x < 1/2
  · rw [if_pos (h1.mpr hc1), if_pos hc1]
  · rw [if_neg (fun hlt => hc1 (h1.mp hlt)), if_neg hc1]
    by_cases hc2 : 1/2 < Int.fract x
    · rw [if_pos (h2.mpr hc2), if_pos hc2]
    · rw [if_neg (fun hlt => hc2 (h2.mp hlt)), if_neg hc2]

theorem pyRoundInt_le_floor_add_one (x : ℚ) : pyRoundInt x ≤ ⌊x⌋ + 1 := by
  rw [pyRoundInt_eq_cases]
  split_ifs <;> omega

theorem floor_le_pyRoundInt (x : ℚ) : ⌊x⌋ ≤ pyRoundInt x := by
  rw [pyRoundInt_eq_cases]
  split_ifs <;> omega

theorem pyRoundInt_mono {x y : ℚ} (h : x ≤ y) : pyRoundInt x ≤ pyRoundInt y := by
  have hf : ⌊x⌋ ≤ ⌊y⌋ := Int.floor_mono h
  rcases eq_or_lt_of_le hf with heq | hlt
  · have hfr : Int.fract x ≤ Int.fract y := by
      rw [Int.fract, Int.fract, ← heq]
      linarith
    rw [pyRoundInt_eq_cases, pyRoundInt_eq_cases]
    split_ifs <;> first | omega | linarith
  · have e1 := pyRoundInt_le_floor_add_one x
    have e2 := floor_le_pyRoundInt y
    omega

theorem round2_mono {x y : ℚ} (h : x ≤ y) : round2 x ≤ round2 y := by
  unfold round2
  have h0 : pyRoundInt (100 * x) ≤ pyRoundInt (100 * y) := pyRoundInt_mono (by linarith)
  have h1 : ((pyRoundInt (100 * x) : ℤ) : ℚ) ≤ ((pyRoundInt (100 * y) : ℤ) : ℚ) := by
    exact_mod_cast h0
  linarith

theorem round2_zero : round2 0 = 0 := by decide

theorem round2_nonneg {x : ℚ} (h : 0 ≤ x) : 0 ≤ round2 x := by
  have := round2_mono h
  rwa [round2_zero] at this

/-- Python's `value or default` idiom used at the top of both `calculate`
methods (`arpu = arpu or self.default_arpu`, and so on): a missing argument
(`None`) falls back to the default, and so does an explicit `0`, since `0.0`
is falsy in Python. -/
def pyOr (x : Option ℚ) (d : ℚ) : ℚ :=
  match x with
  | none => d
  | some v => if v = 0 then d else v

/-- One month of output of `LargeCustomerCalculator.calculate`.  The fields
`month` through `churn_rate` are exactly the keys of the dict appended to
`monthly_data` (the four figures are stored through `round(..., 2)`).  The
`..._raw` fields record the unrounded loop variables from which the stored
figures are rounded; `cumulative_raw` is the value of the loop variable
`cumulative_customers` after this iteration, which the next iteration reads
(Python keeps it in a local, equivalently recovered here from the last
snapshot). -/
structure LCMonth where
  month : ℕ
  new_customers : ℚ
  churned_customers : ℚ
  cumulative_customers : ℚ
  revenue : ℚ
  arpu : ℚ
  growth_rate : ℚ
  churn_rate : ℚ
  new_raw : ℚ
  churned_raw : ℚ
  cumulative_raw : ℚ
  revenue_raw : ℚ
  deriving DecidableEq

/-- Out-of-range placeholder used with `List.getD`; all-zero fields. -/
def LCMonth.zero : LCMonth :=
  { month := 0, new_customers := 0, churned_customers := 0, cumulative_customers := 0
  , revenue := 0, arpu := 0, growth_rate := 0, churn_rate := 0
  , new_raw := 0, churned_raw := 0, cumulative_raw := 0, revenue_raw := 0 }

/-- Instance data of `LargeCustomerCalculator.__init__`. -/
structure LargeCustomerCalculator where
  default_arpu : ℚ
  onboarding_ramp : List ℚ
  default_growth_rate : ℚ
  default_churn_rate : ℚ
  deriving DecidableEq

/-- The module-level instance `large_calculator = LargeCustomerCalculator()`
of backend/routers/forecast.py: constructor defaults `default_arpu = 16667`,
`onboarding_ramp = [1, 1, 2, 2, 3, 4, 5, 6, 7, 8, 9]`,
`default_growth_rate = 0.05`, `default_churn_rate = 0.02`. -/
def large_calculator : LargeCustomerCalculator :=
  { default_arpu := 16667
  , onboarding_ramp := [1, 1, 2, 2, 3, 4, 5, 6, 7, 8, 9]
  , default_growth_rate := 5/100
  , default_churn_rate := 2/100 }

/-- Body of one iteration of the `for month in range(1, timeframe_months + 1)`
loop of `LargeCustomerCalculator.calculate`.  `cumulative_customers` is the
loop variable before this iteration and `prevNew` is
`monthly_data[-1]["new_customers"]`, the previous month's STORED (rounded)
new-customer figure, which is what the source reads in the growth branch.
`onboarding_ramp[month - 1]` and `onboarding_ramp[-1]` are modelled with
`List.getD`/`List.getLastD` (in every run of the source the index is in
range, so the `0` fallbacks never fire for the fixed nonempty ramp). -/
def lcMonthStep (c : LargeCustomerCalculator) (arpu growth_rate churn_rate : ℚ)
    (cumulative_customers prevNew : ℚ) (month : ℕ) : LCMonth :=
  let new_customers : ℚ :=
    if month ≤ c.onboarding_ramp.length then
      c.onboarding_ramp.getD (month - 1) 0
    else if month = c.onboarding_ramp.length + 1 then
      c.onboarding_ramp.getLastD 0 * (1 + growth_rate)
    else
      prevNew * (1 + growth_rate)
  let churned_customers : ℚ := cumulative_customers * churn_rate
  let cum2 : ℚ := cumulative_customers + new_customers - churned_customers
  let revenue : ℚ := cum2 * arpu
  { month := month
  , new_customers := round2 new_customers
  , churned_customers := round2 churned_customers
  , cumulative_customers := round2 cum2
  , revenue := round2 revenue
  , arpu := arpu
  , growth_rate := growth_rate
  , churn_rate := churn_rate
  , new_raw := new_customers
  , churned_raw := churned_customers
  , cumulative_raw := cum2
  , revenue_raw := revenue }

/-- The `monthly_data` list after `n` iterations of the loop of
`LargeCustomerCalculator.calculate` (months 1..n).  The loop state —
the running unrounded stock, initialised by `cumulative_customers = 0`,
and the previous stored new-customer figure read by the growth branch —
is recovered from the last appended snapshot. -/
def lcRun (c : LargeCustomerCalculator) (arpu growth_rate churn_rate : ℚ) : ℕ → List LCMonth
  | 0 => []
  | n+1 =>
    let monthly_data := lcRun c arpu growth_rate churn_rate n
    let cum : ℚ :=
      match monthly_data.getLast? with
      | some s => s.cumulative_raw
      | none => 0
    let prevNew : ℚ :=
      match monthly_data.getLast? with
      | some s => s.new_customers
      | none => 0
    monthly_data ++ [lcMonthStep c arpu growth_rate churn_rate cum prevNew (n+1)]

/-- `LargeCustomerCalculator.calculate(timeframe_months, arpu, growth_rate,
churn_rate)`: the three optional parameters default through Python's `or`
(see `pyOr`), then the month loop runs. -/
def LargeCustomerCalculator.calculate (c : LargeCustomerCalculator) (timeframe_months : ℕ)
    (arpu growth_rate churn_rate : Option ℚ) : List LCMonth :=
  lcRun c (pyOr arpu c.default_arpu) (pyOr growth_rate c.default_growth_rate)
    (pyOr churn_rate c.default_churn_rate) timeframe_months

/-- Closed-form recurrence for the unrounded new-customer count of month `m`
(the value of the loop variable `new_customers` in month `m`); month `0` is a
padding value `0`, matching the unused previous-new state before month 1.
For months past the ramp the source multiplies the previous month's STORED
figure, i.e. `round2` of the previous raw value, by `1 + growth_rate`. -/
def lcNewRaw (c : LargeCustomerCalculator) (growth_rate : ℚ) : ℕ → ℚ
  | 0 => 0
  | m+1 =>
    if m + 1 ≤ c.onboarding_ramp.length then
      c.onboarding_ramp.getD m 0
    else if m + 1 = c.onboarding_ramp.length + 1 then
      c.onboarding_ramp.getLastD 0 * (1 + growth_rate)
    else
      round2 (lcNewRaw c growth_rate m) * (1 + growth_rate)

/-- Cumulative-stock recurrence shared by both calculators: starting from `0`,
each month adds that month's new customers and removes `churn_rate` times the
previous stock (churn is applied to the stock before this month's
acquisitions land, with no clamping at zero). -/
def cumRec (newf : ℕ → ℚ) (churn_rate : ℚ) : ℕ → ℚ
  | 0 => 0
  | m+1 => cumRec newf churn_rate m + newf (m+1) - cumRec newf churn_rate m * churn_rate

/-- Unrounded cumulative stock of the enterprise projector after month `m`. -/
def lcCumRaw (c : LargeCustomerCalculator) (growth_rate churn_rate : ℚ) : ℕ → ℚ :=
  cumRec (lcNewRaw c growth_rate) churn_rate

/-- Snapshot of month `m ≥ 1` of the enterprise projector, expressed through
the closed recurrences; `lcRun_eq` proves the loop produces exactly these. -/
def lcSnapAt (c : LargeCustomerCalculator) (arpu growth_rate churn_rate : ℚ) (m : ℕ) : LCMonth :=
  { month := m
  , new_customers := round2 (lcNewRaw c growth_rate m)
  , churned_customers := round2 (lcCumRaw c growth_rate churn_rate (m-1) * churn_rate)
  , cumulative_customers := round2 (lcCumRaw c growth_rate churn_rate m)
  , revenue := round2 (lcCumRaw c growth_rate churn_rate m * arpu)
  , arpu := arpu
  , growth_rate := growth_rate
  , churn_rate := churn_rate
  , new_raw := lcNewRaw c growth_rate m
  , churned_raw := lcCumRaw c growth_rate churn_rate (m-1) * churn_rate
  , cumulative_raw := lcCumRaw c growth_rate churn_rate m
  , revenue_raw := lcCumRaw c growth_rate churn_rate m * arpu }

theorem lcMonthStep_eq_snapAt (c : LargeCustomerCalculator) (arpu growth_rate churn_rate : ℚ)
    (n : ℕ) :
    lcMonthStep c arpu growth_rate churn_rate (lcCumRaw c growth_rate churn_rate n)
      (round2 (lcNewRaw c growth_rate n)) (n+1)
      = lcSnapAt c arpu growth_rate churn_rate (n+1) := by
  unfold lcMonthStep lcSnapAt
  have hnew : (if n + 1 ≤ c.onboarding_ramp.length then c.onboarding_ramp.getD n 0
      else if n + 1 = c.onboarding_ramp.length + 1 then
        c.onboarding_ramp.getLastD 0 * (1 + growth_rate)
      else round2 (lcNewRaw c growth_rate n) * (1 + growth_rate))
      = lcNewRaw c growth_rate (n+1) := by
    rw [lcNewRaw]
  have hcum : lcCumRaw c growth_rate churn_rate n + lcNewRaw c growth_rate (n+1)
      - lcCumRaw c growth_rate churn_rate n * churn_rate
      = lcCumRaw c growth_rate churn_rate (n+1) := rfl
  simp only [Nat.add_sub_cancel, hnew, hcum]

theorem lcRun_eq (c : LargeCustomerCalculator) (arpu growth_rate churn_rate : ℚ) :
    ∀ n, lcRun c arpu growth_rate churn_rate n
      = (List.range n).map (fun m => lcSnapAt c arpu growth_rate churn_rate (m+1))
  | 0 => rfl
  | n+1 => by
    rw [lcRun, lcRun_eq c arpu growth_rate churn_rate n, List.range_succ, List.map_append,
      List.map_cons, List.map_nil]
    congr 1
    cases n with
    | zero =>
      have h0 := lcMonthStep_eq_snapAt c arpu growth_rate churn_rate 0
      rw [show round2 (lcNewRaw c growth_rate 0) = 0 from round2_zero,
        show lcCumRaw c growth_rate churn_rate 0 = 0 from rfl] at h0
      simp only [List.range_zero, List.map_nil, List.getLast?_nil]
      rw [← h0]
    | succ k =>
      have hlast : ((List.range (k+1)).map
          (fun m => lcSnapAt c arpu growth_rate churn_rate (m+1))).getLast?
          = some (lcSnapAt c arpu growth_rate churn_rate (k+1)) := by
        rw [List.range_succ, List.map_append, List.map_cons, List.map_nil,
          List.getLast?_concat]
      rw [hlast, ← lcMonthStep_eq_snapAt c arpu growth_rate churn_rate (k+1)]
      rfl

theorem lc_calculate_length (c : LargeCustomerCalculator)
    (timeframe_months : ℕ) (arpu growth_rate churn_rate : Option ℚ) :
    (c.calculate timeframe_months arpu growth_rate churn_rate).length = timeframe_months := by
  unfold LargeCustomerCalculator.calculate
  rw [lcRun_eq]
  simp

theorem lc_calculate_getD (c : LargeCustomerCalculator)
    (timeframe_months : ℕ) (arpu growth_rate churn_rate : Option ℚ) (m : ℕ)
    (hm : m < timeframe_months) :
    (c.calculate timeframe_months arpu growth_rate churn_rate).getD m LCMonth.zero
      = lcSnapAt c (pyOr arpu c.default_arpu) (pyOr growth_rate c.default_growth_rate)
          (pyOr churn_rate c.default_churn_rate) (m+1) := by
  unfold LargeCustomerCalculator.calculate
  rw [lcRun_eq]
  simp [List.getD, List.getElem?_map, List.getElem?_range hm]

/-- One month of output of `SMBCalculator.calculate`, mirroring the dict
appended to `monthly_data` (fields `month` through `churn_rate`, the five
figures stored through `round(..., 2)`) together with the unrounded loop
variables: `spend_raw` is the value of the `marketing_spend` loop variable
after this month's compounding (the next iteration continues from it) and
`cumulative_raw` is the unrounded stock after this month. -/
structure SMBMonth where
  month : ℕ
  marketing_spend : ℚ
  new_customers : ℚ
  churned_customers : ℚ
  cumulative_customers : ℚ
  revenue : ℚ
  arpu : ℚ
  cac : ℚ
  conversion_rate : ℚ
  growth_rate : ℚ
  churn_rate : ℚ
  spend_raw : ℚ
  new_raw : ℚ
  churned_raw : ℚ
  cumulative_raw : ℚ
  revenue_raw : ℚ
  deriving DecidableEq

/-- Out-of-range placeholder used with `List.getD`; all-zero fields. -/
def SMBMonth.zero : SMBMonth :=
  { month := 0, marketing_spend := 0, new_customers := 0, churned_customers := 0
  , cumulative_customers := 0, revenue := 0, arpu := 0, cac := 0, conversion_rate := 0
  , growth_rate := 0, churn_rate := 0, spend_raw := 0, new_raw := 0, churned_raw := 0
  , cumulative_raw := 0, revenue_raw := 0 }

/-- Instance data of `SMBCalculator.__init__`. -/
structure SMBCalculator where
  default_arpu : ℚ
  default_marketing_spend : ℚ
  default_cac : ℚ
  default_conversion_rate : ℚ
  default_growth_rate : ℚ
  default_churn_rate : ℚ
  deriving DecidableEq

/-- The module-level instance `smb_calculator = SMBCalculator()` of
backend/routers/forecast.py: constructor defaults `default_arpu = 5000`,
`default_marketing_spend = 200000`, `default_cac = 1250`,
`default_conversion_rate = 0.45`, `default_growth_rate = 0.03`,
`default_churn_rate = 0.05`. -/
def smb_calculator : SMBCalculator :=
  { default_arpu := 5000
  , default_marketing_spend := 200000
  , default_cac := 1250
  , default_conversion_rate := 45/100
  , default_growth_rate := 3/100
  , default_churn_rate := 5/100 }

/-- Body of one iteration of the month loop of `SMBCalculator.calculate`.
`spend` and `cumulative_customers` are the loop variables entering this
iteration.  The source first computes `new_customers = (marketing_spend /
cac) * conversion_rate`, then, when `month > 1 and growth_rate > 0`,
compounds `marketing_spend` by `(1 + growth_rate)` and recomputes
`new_customers` from the compounded spend before churn is applied. -/
def smbMonthStep (arpu cac conversion_rate growth_rate churn_rate : ℚ)
    (spend cumulative_customers : ℚ) (month : ℕ) : SMBMonth :=
  let new0 : ℚ := spend / cac * conversion_rate
  let spend2 : ℚ := if month > 1 ∧ growth_rate > 0 then spend * (1 + growth_rate) else spend
  let new_customers : ℚ :=
    if month > 1 ∧ growth_rate > 0 then spend2 / cac * conversion_rate else new0
  let churned_customers : ℚ := cumulative_customers * churn_rate
  let cum2 : ℚ := cumulative_customers + new_customers - churned_customers
  let revenue : ℚ := cum2 * arpu
  { month := month
  , marketing_spend := round2 spend2
  , new_customers := round2 new_customers
  , churned_customers := round2 churned_customers
  , cumulative_customers := round2 cum2
  , revenue := round2 revenue
  , arpu := arpu
  , cac := cac
  , conversion_rate := conversion_rate
  , growth_rate := growth_rate
  , churn_rate := churn_rate
  , spend_raw := spend2
  , new_raw := new_customers
  , churned_raw := churned_customers
  , cumulative_raw := cum2
  , revenue_raw := revenue }

/-- The `monthly_data` list after `n` iterations of the loop of
`SMBCalculator.calculate`; loop state (`marketing_spend`, initially the
resolved parameter, and the unrounded stock, initially `0`) is recovered
from the last appended snapshot. -/
def smbRun (arpu marketing_spend cac conversion_rate growth_rate churn_rate : ℚ) :
    ℕ → List SMBMonth
  | 0 => []
  | n+1 =>
    let monthly_data := smbRun arpu marketing_spend cac conversion_rate growth_rate churn_rate n
    let spend : ℚ :=
      match monthly_data.getLast? with
      | some s => s.spend_raw
      | none => marketing_spend
    let cum : ℚ :=
      match monthly_data.getLast? with
      | some s => s.cumulative_raw
      | none => 0
    monthly_data ++ [smbMonthStep arpu cac conversion_rate growth_rate churn_rate
      spend cum (n+1)]

/-- `SMBCalculator.calculate(timeframe_months, arpu, marketing_spend, cac,
conversion_rate, growth_rate, churn_rate)`: the six optional parameters
default through Python's `or` (see `pyOr`), then the month loop runs. -/
def SMBCalculator.calculate (c : SMBCalculator) (timeframe_months : ℕ)
    (arpu marketing_spend cac conversion_rate growth_rate churn_rate : Option ℚ) :
    List SMBMonth :=
  smbRun (pyOr arpu c.default_arpu) (pyOr marketing_spend c.default_marketing_spend)
    (pyOr cac c.default_cac) (pyOr conversion_rate c.default_conversion_rate)
    (pyOr growth_rate c.default_growth_rate) (pyOr churn_rate c.default_churn_rate)
    timeframe_months

/-- Value of the `marketing_spend` loop variable after month `m` of the SMB
loop (`m = 0` is the initial parameter value): compounded by
`(1 + growth_rate)` in every month after the first when `growth_rate > 0`,
otherwise unchanged. -/
def smbSpendRaw (marketing_spend growth_rate : ℚ) : ℕ → ℚ
  | 0 => marketing_spend
  | m+1 =>
    if m + 1 > 1 ∧ growth_rate > 0 then
      smbSpendRaw marketing_spend growth_rate m * (1 + growth_rate)
    else
      smbSpendRaw marketing_spend growth_rate m

/-- Unrounded new-customer count of month `m` of the SMB loop: the month's
(post-compounding) spend divided by `cac`, times `conversion_rate`. -/
def smbNewRaw (marketing_spend cac conversion_rate growth_rate : ℚ) (m : ℕ) : ℚ :=
  smbSpendRaw marketing_spend growth_rate m / cac * conversion_rate

/-- Unrounded cumulative stock of the SMB projector after month `m`. -/
def smbCumRaw (marketing_spend cac conversion_rate growth_rate churn_rate : ℚ) : ℕ → ℚ :=
  cumRec (smbNewRaw marketing_spend cac conversion_rate growth_rate) churn_rate

/-- Snapshot of month `m ≥ 1` of the SMB projector, through the closed
recurrences; `smbRun_eq` proves the loop produces exactly these. -/
def smbSnapAt (arpu marketing_spend cac conversion_rate growth_rate churn_rate : ℚ)
    (m : ℕ) : SMBMonth :=
  { month := m
  , marketing_spend := round2 (smbSpendRaw marketing_spend growth_rate m)
  , new_customers := round2 (smbNewRaw marketing_spend cac conversion_rate growth_rate m)
  , churned_customers := round2
      (smbCumRaw marketing_spend cac conversion_rate growth_rate churn_rate (m-1) * churn_rate)
  , cumulative_customers := round2
      (smbCumRaw marketing_spend cac conversion_rate growth_rate churn_rate m)
  , revenue := round2
      (smbCumRaw marketing_spend cac conversion_rate growth_rate churn_rate m * arpu)
  , arpu := arpu
  , cac := cac
  , conversion_rate := conversion_rate
  , growth_rate := growth_rate
  , churn_rate := churn_rate
  , spend_raw := smbSpendRaw marketing_spend growth_rate m
  , new_raw := smbNewRaw marketing_spend cac conversion_rate growth_rate m
  , churned_raw :=
      smbCumRaw marketing_spend cac conversion_rate growth_rate churn_rate (m-1) * churn_rate
  , cumulative_raw := smbCumRaw marketing_spend cac conversion_rate growth_rate churn_rate m
  , revenue_raw :=
      smbCumRaw marketing_spend cac conversion_rate growth_rate churn_rate m * arpu }

theorem smbMonthStep_eq_snapAt (arpu marketing_spend cac conversion_rate growth_rate
    churn_rate : ℚ) (n : ℕ) :
    smbMonthStep arpu cac conversion_rate growth_rate churn_rate
      (smbSpendRaw marketing_spend growth_rate n)
      (smbCumRaw marketing_spend cac conversion_rate growth_rate churn_rate n) (n+1)
      = smbSnapAt arpu marketing_spend cac conversion_rate growth_rate churn_rate (n+1) := by
  unfold smbMonthStep smbSnapAt
  have hspend : (if n + 1 > 1 ∧ growth_rate > 0 then
        smbSpendRaw marketing_spend growth_rate n * (1 + growth_rate)
      else smbSpendRaw marketing_spend growth_rate n)
      = smbSpendRaw marketing_spend growth_rate (n+1) := by
    rw [smbSpendRaw]
  have hnew : (if n + 1 > 1 ∧ growth_rate > 0 then
        smbSpendRaw marketing_spend growth_rate (n+1) / cac * conversion_rate
      else smbSpendRaw marketing_spend growth_rate n / cac * conversion_rate)
      = smbNewRaw marketing_spend cac conversion_rate growth_rate (n+1) := by
    rw [smbNewRaw]
    split_ifs with h
    · rfl
    · rw [smbSpendRaw, if_neg h]
  have hcum : smbCumRaw marketing_spend cac conversion_rate growth_rate churn_rate n
      + smbNewRaw marketing_spend cac conversion_rate growth_rate (n+1)
      - smbCumRaw marketing_spend cac conversion_rate growth_rate churn_rate n * churn_rate
      = smbCumRaw marketing_spend cac conversion_rate growth_rate churn_rate (n+1) := rfl
  simp only [Nat.add_sub_cancel, hspend, hnew, hcum]

theorem smbRun_eq (arpu marketing_spend cac conversion_rate growth_rate churn_rate : ℚ) :
    ∀ n, smbRun arpu marketing_spend cac conversion_rate growth_rate churn_rate n
      = (List.range n).map
          (fun m => smbSnapAt arpu marketing_spend cac conversion_rate growth_rate churn_rate
            (m+1))
  | 0 => rfl
  | n+1 => by
    rw [smbRun, smbRun_eq arpu marketing_spend cac conversion_rate growth_rate churn_rate n,
      List.range_succ, List.map_append, List.map_cons, List.map_nil]
    congr 1
    cases n with
    | zero =>
      have h0 := smbMonthStep_eq_snapAt arpu marketing_spend cac conversion_rate growth_rate
        churn_rate 0
      rw [show smbCumRaw marketing_spend cac conversion_rate growth_rate churn_rate 0 = 0
        from rfl, show smbSpendRaw marketing_spend growth_rate 0 = marketing_spend from rfl]
        at h0
      simp only [List.range_zero, List.map_nil, List.getLast?_nil]
      rw [← h0]
    | succ k =>
      have hlast : ((List.range (k+1)).map
          (fun m => smbSnapAt arpu marketing_spend cac conversion_rate growth_rate churn_rate
            (m+1))).getLast?
          = some (smbSnapAt arpu marketing_spend cac conversion_rate growth_rate churn_rate
              (k+1)) := by
        rw [List.range_succ, List.map_append, List.map_cons, List.map_nil,
          List.getLast?_concat]
      rw [hlast, ← smbMonthStep_eq_snapAt arpu marketing_spend cac conversion_rate growth_rate
        churn_rate (k+1)]
      rfl

theorem smb_calculate_length (c : SMBCalculator) (timeframe_months : ℕ)
    (arpu marketing_spend cac conversion_rate growth_rate churn_rate : Option ℚ) :
    (c.calculate timeframe_months arpu marketing_spend cac conversion_rate growth_rate
      churn_rate).length = timeframe_months := by
  unfold SMBCalculator.calculate
  rw [smbRun_eq]
  simp

theorem smb_calculate_getD (c : SMBCalculator) (timeframe_months : ℕ)
    (arpu marketing_spend cac conversion_rate growth_rate churn_rate : Option ℚ) (m : ℕ)
    (hm : m < timeframe_months) :
    (c.calculate timeframe_months arpu marketing_spend cac conversion_rate growth_rate
      churn_rate).getD m SMBMonth.zero
      = smbSnapAt (pyOr arpu c.default_arpu) (pyOr marketing_spend c.default_marketing_spend)
          (pyOr cac c.default_cac) (pyOr conversion_rate c.default_conversion_rate)
          (pyOr growth_rate c.default_growth_rate) (pyOr churn_rate c.default_churn_rate)
          (m+1) := by
  unfold SMBCalculator.calculate
  rw [smbRun_eq]
  simp [List.getD, List.getElem?_map, List.getElem?_range hm]

theorem cumRec_nonneg (newf : ℕ → ℚ) (churn_rate : ℚ) (hch : churn_rate ≤ 1)
    (hnew : ∀ m, 0 ≤ newf m) : ∀ m, 0 ≤ cumRec newf churn_rate m
  | 0 => le_refl 0
  | m+1 => by
    have ih := cumRec_nonneg newf churn_rate hch hnew m
    rw [cumRec]
    have hexp : cumRec newf churn_rate m + newf (m+1) - cumRec newf churn_rate m * churn_rate
        = cumRec newf churn_rate m * (1 - churn_rate) + newf (m+1) := by ring
    rw [hexp]
    have h1 := mul_nonneg ih (show (0:ℚ) ≤ 1 - churn_rate by linarith)
    linarith [hnew (m+1)]

theorem cumRec_churn_le_new (newf : ℕ → ℚ) (churn_rate : ℚ) (hch0 : 0 ≤ churn_rate)
    (hch1 : churn_rate ≤ 1) (hnew : ∀ m, 0 ≤ newf m) (hmono : ∀ m, newf m ≤ newf (m+1)) :
    ∀ m, churn_rate * cumRec newf churn_rate m ≤ newf (m+1)
  | 0 => by
    rw [show cumRec newf churn_rate 0 = 0 from rfl, mul_zero]
    exact hnew 1
  | m+1 => by
    have ih := cumRec_churn_le_new newf churn_rate hch0 hch1 hnew hmono m
    rw [cumRec]
    have hexp : churn_rate * (cumRec newf churn_rate m + newf (m+1)
        - cumRec newf churn_rate m * churn_rate)
        = (1 - churn_rate) * (churn_rate * cumRec newf churn_rate m)
          + churn_rate * newf (m+1) := by ring
    rw [hexp]
    have h1 : (1 - churn_rate) * (churn_rate * cumRec newf churn_rate m)
        ≤ (1 - churn_rate) * newf (m+1) :=
      mul_le_mul_of_nonneg_left ih (by linarith)
    have h2 := hmono (m+1)
    nlinarith

theorem cumRec_mono (newf : ℕ → ℚ) (churn_rate : ℚ) (hch0 : 0 ≤ churn_rate)
    (hch1 : churn_rate ≤ 1) (hnew : ∀ m, 0 ≤ newf m) (hmono : ∀ m, newf m ≤ newf (m+1))
    (m : ℕ) : cumRec newf churn_rate m ≤ cumRec newf churn_rate (m+1) := by
  have inv := cumRec_churn_le_new newf churn_rate hch0 hch1 hnew hmono m
  rw [cumRec]
  nlinarith

theorem lcNewRaw_nonneg (c : LargeCustomerCalculator) (growth_rate : ℚ) (hg : 0 ≤ growth_rate)
    (hramp : ∀ x ∈ c.onboarding_ramp, 0 ≤ x) : ∀ m, 0 ≤ lcNewRaw c growth_rate m
  | 0 => le_refl 0
  | m+1 => by
    have ih := lcNewRaw_nonneg c growth_rate hg hramp m
    rw [lcNewRaw]
    split_ifs with h1 h2
    · rcases Nat.lt_or_ge m c.onboarding_ramp.length with hk | hk
      · rw [c.onboarding_ramp.getD_eq_getElem 0 hk]
        exact hramp _ (c.onboarding_ramp.getElem_mem hk)
      · rw [c.onboarding_ramp.getD_eq_default 0 hk]
    · have hlast : 0 ≤ c.onboarding_ramp.getLastD 0 := by
        cases hc : c.onboarding_ramp with
        | nil => simp
        | cons a l =>
          have hne : (a :: l : List ℚ) ≠ [] := by simp
          rw [List.getLastD_eq_getLast?, List.getLast?_eq_getLast (a::l) hne,
            Option.getD_some]
          have hmem : (a::l).getLast hne ∈ c.onboarding_ramp := by
            rw [hc]
            exact List.getLast_mem hne
          exact hramp _ hmem
      exact mul_nonneg hlast (by linarith)
    · exact mul_nonneg (round2_nonneg ih) (by linarith)

theorem lcNewRaw_mono (growth_rate : ℚ) (hg : 0 ≤ growth_rate) :
    ∀ m, lcNewRaw large_calculator growth_rate m
      ≤ lcNewRaw large_calculator growth_rate (m+1) := by
  intro m
  induction m with
  | zero =>
    simp [lcNewRaw, large_calculator]
  | succ k ih =>
    rcases Nat.lt_or_ge k 10 with hk | hk
    · interval_cases k <;> simp [lcNewRaw, large_calculator] <;> norm_num
    · rcases Nat.lt_or_ge k 11 with hk2 | hk2
      · have hk10 : k = 10 := by omega
        subst hk10
        have h11 : lcNewRaw large_calculator growth_rate 11 = 9 := by
          simp [lcNewRaw, large_calculator]
        have h12 : lcNewRaw large_calculator growth_rate 12 = 9 * (1 + growth_rate) := by
          simp [lcNewRaw, large_calculator]
        rw [h11, h12]
        nlinarith
      · rcases Nat.lt_or_ge k 12 with hk3 | hk3
        · have hk11 : k = 11 := by omega
          subst hk11
          have h12 : lcNewRaw large_calculator growth_rate 12 = 9 * (1 + growth_rate) := by
            simp [lcNewRaw, large_calculator]
          have h13 : lcNewRaw large_calculator growth_rate 13
              = round2 (lcNewRaw large_calculator growth_rate 12) * (1 + growth_rate) := by
            rw [lcNewRaw, if_neg (by simp [large_calculator]),
              if_neg (by simp [large_calculator])]
          rw [h12, h13, h12]
          have h9 : (9:ℚ) ≤ round2 (9 * (1 + growth_rate)) := by
            have hle := round2_mono (show (9:ℚ) ≤ 9 * (1 + growth_rate) by nlinarith)
            rwa [show round2 9 = 9 by decide] at hle
          exact mul_le_mul_of_nonneg_right h9 (by linarith)
        · have e1 : lcNewRaw large_calculator growth_rate (k+2)
              = round2 (lcNewRaw large_calculator growth_rate (k+1)) * (1 + growth_rate) := by
            rw [lcNewRaw, if_neg (by simp [large_calculator]; omega),
              if_neg (by simp [large_calculator]; omega)]
          have e2 : lcNewRaw large_calculator growth_rate (k+1)
              = round2 (lcNewRaw large_calculator growth_rate k) * (1 + growth_rate) := by
            rw [lcNewRaw, if_neg (by simp [large_calculator]; omega),
              if_neg (by simp [large_calculator]; omega)]
          rw [e2, e1]
          exact mul_le_mul_of_nonneg_right (round2_mono ih) (by linarith)

theorem smbSpendRaw_nonneg (marketing_spend growth_rate : ℚ) (hs : 0 ≤ marketing_spend) :
    ∀ m, 0 ≤ smbSpendRaw marketing_spend growth_rate m
  | 0 => hs
  | m+1 => by
    have ih := smbSpendRaw_nonneg marketing_spend growth_rate hs m
    rw [smbSpendRaw]
    split_ifs with h
    · exact mul_nonneg ih (by linarith [h.2])
    · exact ih

theorem smbSpendRaw_mono (marketing_spend growth_rate : ℚ) (hs : 0 ≤ marketing_spend)
    (m : ℕ) : smbSpendRaw marketing_spend growth_rate m
      ≤ smbSpendRaw marketing_spend growth_rate (m+1) := by
  conv_rhs => rw [smbSpendRaw]
  split_ifs with h
  · nlinarith [smbSpendRaw_nonneg marketing_spend growth_rate hs m, h.2]
  · exact le_refl _

theorem smbNewRaw_nonneg (marketing_spend cac conversion_rate growth_rate : ℚ)
    (hs : 0 ≤ marketing_spend) (hcac : 0 ≤ cac) (hconv : 0 ≤ conversion_rate) (m : ℕ) :
    0 ≤ smbNewRaw marketing_spend cac conversion_rate growth_rate m :=
  mul_nonneg (div_nonneg (smbSpendRaw_nonneg marketing_spend growth_rate hs m) hcac) hconv

theorem smbNewRaw_mono (marketing_spend cac conversion_rate growth_rate : ℚ)
    (hs : 0 ≤ marketing_spend) (hcac : 0 < cac) (hconv : 0 ≤ conversion_rate) (m : ℕ) :
    smbNewRaw marketing_spend cac conversion_rate growth_rate m
      ≤ smbNewRaw marketing_spend cac conversion_rate growth_rate (m+1) := by
  unfold smbNewRaw
  have h1 : smbSpendRaw marketing_spend growth_rate m / cac
      ≤ smbSpendRaw marketing_spend growth_rate (m+1) / cac :=
    (div_le_div_iff_of_pos_right hcac).mpr (smbSpendRaw_mono marketing_spend growth_rate hs m)
  exact mul_le_mul_of_nonneg_right h1 hconv

/-- Value of `KnowledgeService.get_assumptions()["large_customer"]`
(app/backend/services/knowledge_service.py): a dict with keys `arpu`,
`onboarding_ramp`, `growth_rate`, `churn_rate`, modelled as a structure with
those fields. -/
structure LargeCustomerAssumptions where
  arpu : ℚ
  onboarding_ramp : List ℚ
  growth_rate : ℚ
  churn_rate : ℚ
  deriving DecidableEq

/-- Value of `KnowledgeService.get_assumptions()["smb_customer"]`: a dict
with keys `arpu`, `marketing_spend`, `cac`, `conversion_rate`,
`growth_rate`, `churn_rate`. -/
structure SMBCustomerAssumptions where
  arpu : ℚ
  marketing_spend : ℚ
  cac : ℚ
  conversion_rate : ℚ
  growth_rate : ℚ
  churn_rate : ℚ
  deriving DecidableEq

/-- The two-profile assumptions dict returned by
`KnowledgeService.get_assumptions`. -/
structure Assumptions where
  large_customer : LargeCustomerAssumptions
  smb_customer : SMBCustomerAssumptions
  deriving DecidableEq

/-- `KnowledgeService.get_assumptions()`: the hard-coded default profiles. -/
def get_assumptions : Assumptions :=
  { large_customer :=
    { arpu := 16667
    , onboarding_ramp := [1, 1, 2, 2, 3, 4, 5, 6, 7, 8, 9]
    , growth_rate := 5/100
    , churn_rate := 2/100 }
  , smb_customer :=
    { arpu := 5000
    , marketing_spend := 200000
    , cac := 1250
    , conversion_rate := 45/100
    , growth_rate := 3/100
    , churn_rate := 5/100 } }

/-- Recognised keys of `overrides["large"]`: `KnowledgeService.update_assumptions`
merges this dict into the `large_customer` profile with `dict.update`, so a
present key overwrites the default and an absent key retains it.  A `some`
field models a present key.  (Keys outside the profile would be silently
absorbed by `dict.update`; no profile consumer reads them, so they are not
modelled.) -/
structure LargeOverrides where
  arpu : Option ℚ
  onboarding_ramp : Option (List ℚ)
  growth_rate : Option ℚ
  churn_rate : Option ℚ
  deriving DecidableEq

/-- Recognised keys of `overrides["smb"]`, merged into `smb_customer`. -/
structure SMBOverrides where
  arpu : Option ℚ
  marketing_spend : Option ℚ
  cac : Option ℚ
  conversion_rate : Option ℚ
  growth_rate : Option ℚ
  churn_rate : Option ℚ
  deriving DecidableEq

/-- The `assumption_overrides` argument of `_execute_calculation`:
`update_assumptions` checks `"large" in overrides` and `"smb" in overrides`,
modelled by the two `Option` fields. -/
structure AssumptionOverrides where
  large : Option LargeOverrides
  smb : Option SMBOverrides
  deriving DecidableEq

/-- Empty overrides dict (no `large` and no `smb` key). -/
def noOverrides : AssumptionOverrides := { large := none, smb := none }

/-- Empty `large` overrides dict (present but with no recognised key). -/
def noLargeOverrides : LargeOverrides :=
  { arpu := none, onboarding_ramp := none, growth_rate := none, churn_rate := none }

/-- Empty `smb` overrides dict. -/
def noSMBOverrides : SMBOverrides :=
  { arpu := none, marketing_spend := none, cac := none, conversion_rate := none
  , growth_rate := none, churn_rate := none }

/-- `assumptions["large_customer"].update(overrides["large"])`: every present
override key overwrites the corresponding field, absent keys retain the
existing value. -/
def applyLargeOverrides (a : LargeCustomerAssumptions) (o : LargeOverrides) :
    LargeCustomerAssumptions :=
  { arpu := o.arpu.getD a.arpu
  , onboarding_ramp := o.onboarding_ramp.getD a.onboarding_ramp
  , growth_rate := o.growth_rate.getD a.growth_rate
  , churn_rate := o.churn_rate.getD a.churn_rate }

/-- `assumptions["smb_customer"].update(overrides["smb"])`. -/
def applySMBOverrides (a : SMBCustomerAssumptions) (o : SMBOverrides) :
    SMBCustomerAssumptions :=
  { arpu := o.arpu.getD a.arpu
  , marketing_spend := o.marketing_spend.getD a.marketing_spend
  , cac := o.cac.getD a.cac
  , conversion_rate := o.conversion_rate.getD a.conversion_rate
  , growth_rate := o.growth_rate.getD a.growth_rate
  , churn_rate := o.churn_rate.getD a.churn_rate }

/-- `KnowledgeService.update_assumptions(overrides)`: starts from
`get_assumptions()` and merges `overrides["large"]` / `overrides["smb"]`
into the respective profile when present. -/
def update_assumptions (overrides : AssumptionOverrides) : Assumptions :=
  let assumptions := get_assumptions
  { large_customer :=
      match overrides.large with
      | some o => applyLargeOverrides assumptions.large_customer o
      | none => assumptions.large_customer
  , smb_customer :=
      match overrides.smb with
      | some o => applySMBOverrides assumptions.smb_customer o
      | none => assumptions.smb_customer }

/-- Errors `_execute_calculation` can raise: `typeError k` models the Python
`TypeError` raised when keyword-argument binding meets an unexpected key `k`,
and `valueError msg` models `raise ValueError(msg)` in the unknown-intent
branch. -/
inductive ExecError
  | typeError (arg : String)
  | valueError (msg : String)
  deriving DecidableEq

/-- Keys of the dict `updated_assumptions["large_customer"]`, in insertion
order (the merge never adds or removes a key of the default profile). -/
def large_customer_keys : List String := ["arpu", "onboarding_ramp", "growth_rate", "churn_rate"]

/-- Keyword parameters of `LargeCustomerCalculator.calculate` still
bindable at the call site `calculate(timeframe_months=..., **dict)`
(`timeframe_months` is already bound). -/
def large_calculate_kwargs : List String := ["arpu", "growth_rate", "churn_rate"]

/-- Keys of the dict `updated_assumptions["smb_customer"]`. -/
def smb_customer_keys : List String :=
  ["arpu", "marketing_spend", "cac", "conversion_rate", "growth_rate", "churn_rate"]

/-- Keyword parameters of `SMBCalculator.calculate` still bindable at the
call site. -/
def smb_calculate_kwargs : List String :=
  ["arpu", "marketing_spend", "cac", "conversion_rate", "growth_rate", "churn_rate"]

/-- The call `large_calculator.calculate(timeframe_months=timeframe_months,
**updated_assumptions["large_customer"])`.  Python binds each dict key to the
parameter of the same name and raises `TypeError` on the first key that is
not a parameter; the profile dict carries `onboarding_ramp`, which
`calculate` does not accept. -/
def callLargeCalculate (timeframe_months : ℕ) (a : LargeCustomerAssumptions) :
    Except ExecError (List LCMonth) :=
  match large_customer_keys.find? (fun k => !(large_calculate_kwargs.contains k)) with
  | some k => .error (.typeError k)
  | none => .ok (large_calculator.calculate timeframe_months (some a.arpu)
      (some a.growth_rate) (some a.churn_rate))

/-- The call `smb_calculator.calculate(timeframe_months=timeframe_months,
**updated_assumptions["smb_customer"])`; every key of the SMB profile dict is
a parameter of `SMBCalculator.calculate`, so binding succeeds. -/
def callSMBCalculate (timeframe_months : ℕ) (a : SMBCustomerAssumptions) :
    Except ExecError (List SMBMonth) :=
  match smb_customer_keys.find? (fun k => !(smb_calculate_kwargs.contains k)) with
  | some k => .error (.typeError k)
  | none => .ok (smb_calculator.calculate timeframe_months (some a.arpu)
      (some a.marketing_spend) (some a.cac) (some a.conversion_rate)
      (some a.growth_rate) (some a.churn_rate))

/-- The `sales_people_ramp` literal of the `forecast_total_revenue` branch
(a presentation-only headcount table rebuilt each iteration). -/
def sales_people_ramp : List ℚ := [1, 2, 2, 2, 3, 4, 5, 6, 7, 8, 9]

/-- One entry of `result_data["monthly_data"]` in the
`forecast_total_revenue` branch, for loop index `i` (month `i + 1`).  The
source reads `large_data[i]` / `smb_data[i]` (always in range, since both
lists have length `timeframe_months`; modelled with `List.getD`) and copies
profile values out of `updated_assumptions` — the `.get(key, default)`
fallbacks never fire because the merged profile dict always carries every
key, so they appear here as plain field reads. -/
structure TotalMonthRow where
  month : ℕ
  large_customer_revenue : ℚ
  smb_customer_revenue : ℚ
  total_revenue : ℚ
  total_revenue_mn : ℚ
  sales_people : ℚ
  large_accounts_per_sales_person : ℚ
  large_accounts_onboarded : ℚ
  cumulative_large_customers : ℚ
  avg_revenue_per_large_customer : ℚ
  digital_marketing_spend : ℚ
  avg_cac : ℚ
  sales_enquiries : ℚ
  conversion_rate : ℚ
  smb_customers_onboarded : ℚ
  cumulative_smb_customers : ℚ
  avg_revenue_per_smb_customer : ℚ
  large_churned_customers : ℚ
  smb_churned_customers : ℚ
  large_growth_rate : ℚ
  smb_growth_rate : ℚ
  large_churn_rate : ℚ
  smb_churn_rate : ℚ
  deriving DecidableEq

/-- Builds the month-`i+1` entry of `monthly_data` exactly as the loop body
of the `forecast_total_revenue` branch does. -/
def totalMonthRow (ua : Assumptions) (large_data : List LCMonth) (smb_data : List SMBMonth)
    (i : ℕ) : TotalMonthRow :=
  let large_revenue := (large_data.getD i LCMonth.zero).revenue
  let smb_revenue := (smb_data.getD i SMBMonth.zero).revenue
  let total_revenue := large_revenue + smb_revenue
  let sales_people : ℚ :=
    if i < sales_people_ramp.length then sales_people_ramp.getD i 0
    else sales_people_ramp.getLastD 0
  let sales_enquiries : ℚ := 160
  { month := i + 1
  , large_customer_revenue := large_revenue
  , smb_customer_revenue := smb_revenue
  , total_revenue := total_revenue
  , total_revenue_mn := round2 (total_revenue / 1000000)
  , sales_people := sales_people
  , large_accounts_per_sales_person := 1
  , large_accounts_onboarded := (large_data.getD i LCMonth.zero).new_customers
  , cumulative_large_customers := (large_data.getD i LCMonth.zero).cumulative_customers
  , avg_revenue_per_large_customer := ua.large_customer.arpu
  , digital_marketing_spend := ua.smb_customer.marketing_spend
  , avg_cac := ua.smb_customer.cac
  , sales_enquiries := sales_enquiries
  , conversion_rate := ua.smb_customer.conversion_rate
  , smb_customers_onboarded := (smb_data.getD i SMBMonth.zero).new_customers
  , cumulative_smb_customers := (smb_data.getD i SMBMonth.zero).cumulative_customers
  , avg_revenue_per_smb_customer := ua.smb_customer.arpu
  , large_churned_customers := (large_data.getD i LCMonth.zero).churned_customers
  , smb_churned_customers := (smb_data.getD i SMBMonth.zero).churned_customers
  , large_growth_rate := ua.large_customer.growth_rate
  , smb_growth_rate := ua.smb_customer.growth_rate
  , large_churn_rate := ua.large_customer.churn_rate
  , smb_churn_rate := ua.smb_customer.churn_rate }

/-- The `result_data["summary"]` dict of the `forecast_total_revenue`
branch.  The source accumulates the three totals inside the same
`for i in range(timeframe_months)` loop that builds `monthly_data`, starting
from `0`; the accumulated value equals the sum over the built rows. -/
structure TotalSummary where
  total_revenue : ℚ
  large_customer_revenue : ℚ
  smb_customer_revenue : ℚ
  deriving DecidableEq

/-- Summary accumulated over the built rows. -/
def totalSummary (rows : List TotalMonthRow) : TotalSummary :=
  { total_revenue := (rows.map (fun r => r.total_revenue)).sum
  , large_customer_revenue := (rows.map (fun r => r.large_customer_revenue)).sum
  , smb_customer_revenue := (rows.map (fun r => r.smb_customer_revenue)).sum }

/-- The `result_data` dict returned by `_execute_calculation`, one
constructor per intent branch (the `forecast_type` tag of the source dict is
the constructor; `message` strings are constants and omitted).  For the
single-segment intents the summary fields are `total_revenue` (sum of the
monthly stored revenue figures) and `total_customers`
(`monthly_data[-1]["cumulative_customers"] if monthly_data else 0`). -/
inductive ResultData
  | totalRevenue (timeframe_months : ℕ) (monthly_data : List TotalMonthRow)
      (summary : TotalSummary)
  | largeRevenue (timeframe_months : ℕ) (monthly_data : List LCMonth)
      (total_revenue : ℚ) (total_customers : ℚ)
  | smbRevenue (timeframe_months : ℕ) (monthly_data : List SMBMonth)
      (total_revenue : ℚ) (total_customers : ℚ)
  | assumptionsExplanation (assumptions : Assumptions)
  deriving DecidableEq

/-- Return value of `_execute_calculation`: the tuple
`(result_data, assumptions_used)`, instrumented with the number of
calculator invocations the run performed (not part of the source's return
value; it makes "runs no projector" a statable property). -/
structure ExecOutput where
  result_data : ResultData
  assumptions_used : Assumptions
  projector_calls : ℕ
  deriving DecidableEq

/-- `_execute_calculation(parsed_intent)` (backend/routers/forecast.py),
with `parsed_intent` already split into its three fields.  Reads the intent,
merges overrides into the defaults via `update_assumptions`, then branches
on the intent string; any unmatched intent raises
`ValueError(f"Unknown intent: ...")`.  (`base_assumptions`, bound from
`get_assumptions()` in the source, is never used afterwards.) -/
def executeCalculation (intent : String) (timeframe_months : ℕ)
    (assumption_overrides : AssumptionOverrides) : Except ExecError ExecOutput :=
  let updated_assumptions := update_assumptions assumption_overrides
  if intent = "forecast_total_revenue" then
    match callLargeCalculate timeframe_months updated_assumptions.large_customer with
    | .error e => .error e
    | .ok large_data =>
      match callSMBCalculate timeframe_months updated_assumptions.smb_customer with
      | .error e => .error e
      | .ok smb_data =>
        let rows := (List.range timeframe_months).map
          (totalMonthRow updated_assumptions large_data smb_data)
        .ok { result_data := ResultData.totalRevenue timeframe_months rows (totalSummary rows)
            , assumptions_used := updated_assumptions
            , projector_calls := 2 }
  else if intent = "forecast_large_revenue" then
    match callLargeCalculate timeframe_months updated_assumptions.large_customer with
    | .error e => .error e
    | .ok large_data =>
      .ok { result_data := ResultData.largeRevenue timeframe_months large_data
              ((large_data.map (fun s => s.revenue)).sum)
              (match large_data.getLast? with
               | some s => s.cumulative_customers
               | none => 0)
          , assumptions_used := updated_assumptions
          , projector_calls := 1 }
  else if intent = "forecast_smb_revenue" then
    match callSMBCalculate timeframe_months updated_assumptions.smb_customer with
    | .error e => .error e
    | .ok smb_data =>
      .ok { result_data := ResultData.smbRevenue timeframe_months smb_data
              ((smb_data.map (fun s => s.revenue)).sum)
              (match smb_data.getLast? with
               | some s => s.cumulative_customers
               | none => 0)
          , assumptions_used := updated_assumptions
          , projector_calls := 1 }
  else if intent = "explain_assumptions" then
    .ok { result_data := ResultData.assumptionsExplanation updated_assumptions
        , assumptions_used := updated_assumptions
        , projector_calls := 0 }
  else
    .error (.valueError ("Unknown intent: " ++ intent))

/-- Observable outcome of `create_forecast` (backend/routers/forecast.py):
the final status written to the persisted `ForecastQuery`, whether a
`ForecastResult` record was created, the HTTP status of the response, and
the returned result payload. -/
structure CreateForecastOutcome where
  queryStatus : String
  resultSaved : Bool
  httpStatus : ℕ
  response : Option ResultData
  deriving DecidableEq

/-- `create_forecast`, specialised to its persistence-visible behavior once
the external parser has produced `parsed_intent`.  The query record is
created with status `"processing"`; on success a `ForecastResult` record is
written and the query is updated to `"completed"` (HTTP 200); a `ValueError`
from `_execute_calculation` is caught, the query is marked `"failed"` and an
HTTP 400 is raised; any other exception (such as the `TypeError` from
keyword binding) is caught by the generic handler, the query is marked
`"failed"` and an HTTP 500 is raised.  No result record is written on
either failure path, since `_execute_calculation` raises before the
`ForecastResult` is built. -/
def createForecast (intent : String) (timeframe_months : ℕ)
    (assumption_overrides : AssumptionOverrides) : CreateForecastOutcome :=
  match executeCalculation intent timeframe_months assumption_overrides with
  | .ok out =>
    { queryStatus := "completed", resultSaved := true, httpStatus := 200
    , response := some out.result_data }
  | .error (.valueError _) =>
    { queryStatus := "failed", resultSaved := false, httpStatus := 400, response := none }
  | .error (.typeError _) =>
    { queryStatus := "failed", resultSaved := false, httpStatus := 500, response := none }

/-- Claim C10: explicitly passing `0` (the only falsy float besides `None`)
as an override for any numeric parameter of either calculator makes the
calculator substitute its stored default, so the output sequence is
identical to a call that omits the argument entirely. -/
theorem C10_zero_override_equals_default :
    (∀ (c : LargeCustomerCalculator) (n : ℕ) (a g ch : Option ℚ),
      c.calculate n (some 0) g ch = c.calculate n none g ch
      ∧ c.calculate n a (some 0) ch = c.calculate n a none ch
      ∧ c.calculate n a g (some 0) = c.calculate n a g none)
    ∧ (∀ (c : SMBCalculator) (n : ℕ) (a s cac conv g ch : Option ℚ),
      c.calculate n (some 0) s cac conv g ch = c.calculate n none s cac conv g ch
      ∧ c.calculate n a (some 0) cac conv g ch = c.calculate n a none cac conv g ch
      ∧ c.calculate n a s (some 0) conv g ch = c.calculate n a s none conv g ch
      ∧ c.calculate n a s cac (some 0) g ch = c.calculate n a s cac none g ch
      ∧ c.calculate n a s cac conv (some 0) ch = c.calculate n a s cac conv none ch
      ∧ c.calculate n a s cac conv g (some 0) = c.calculate n a s cac conv g none) := by
  have hOr : ∀ d : ℚ, pyOr (some 0) d = pyOr none d := fun d => rfl
  constructor
  · intro c n a g ch
    refine ⟨?_, ?_, ?_⟩ <;> unfold LargeCustomerCalculator.calculate <;> rw [hOr]
  · intro c n a s cac conv g ch
    refine ⟨?_, ?_, ?_, ?_, ?_, ?_⟩ <;> unfold SMBCalculator.calculate <;> rw [hOr]

/-- Claim C8: for the `explain_assumptions` intent the orchestrator invokes
neither projector (zero calculator invocations) and returns the effective
parameter set — the defaults with every present override key overwritten
and absent keys retained, which is exactly `update_assumptions` — verbatim
as the result payload; with no overrides it returns the default profiles
unmodified. -/
theorem C8_explain_assumptions_returns_merged_defaults :
    (∀ (timeframe_months : ℕ) (overrides : AssumptionOverrides),
      executeCalculation "explain_assumptions" timeframe_months overrides
        = .ok { result_data := ResultData.assumptionsExplanation (update_assumptions overrides)
              , assumptions_used := update_assumptions overrides
              , projector_calls := 0 })
    ∧ update_assumptions noOverrides = get_assumptions := by
  constructor
  · intro timeframe_months overrides
    unfold executeCalculation
    rw [if_neg (by decide), if_neg (by decide), if_neg (by decide), if_pos rfl]
  · rfl

/-- Claim C7: every intent string outside the four supported ones makes
`_execute_calculation` raise `ValueError("Unknown intent: ...")`, which
`create_forecast` surfaces as an HTTP 400 client error; no forecast result
is computed or persisted and the query status is set to `"failed"`, never
`"completed"`. -/
theorem C7_unknown_intent_fails (intent : String) (timeframe_months : ℕ)
    (overrides : AssumptionOverrides)
    (h : intent ∉ ["forecast_total_revenue", "forecast_large_revenue",
      "forecast_smb_revenue", "explain_assumptions"]) :
    executeCalculation intent timeframe_months overrides
      = .error (.valueError ("Unknown intent: " ++ intent))
    ∧ createForecast intent timeframe_months overrides
      = { queryStatus := "failed", resultSaved := false, httpStatus := 400, response := none }
    ∧ (createForecast intent timeframe_months overrides).queryStatus ≠ "completed" := by
  have h1 : intent ≠ "forecast_total_revenue" := fun he => h (by rw [he]; simp)
  have h2 : intent ≠ "forecast_large_revenue" := fun he => h (by rw [he]; simp)
  have h3 : intent ≠ "forecast_smb_revenue" := fun he => h (by rw [he]; simp)
  have h4 : intent ≠ "explain_assumptions" := fun he => h (by rw [he]; simp)
  have hexec : executeCalculation intent timeframe_months overrides
      = .error (.valueError ("Unknown intent: " ++ intent)) := by
    unfold executeCalculation
    rw [if_neg h1, if_neg h2, if_neg h3, if_neg h4]
  refine ⟨hexec, ?_, ?_⟩
  · unfold createForecast
    rw [hexec]
  · unfold createForecast
    rw [hexec]
    show ("failed" : String) ≠ "completed"
    decide

/-- Witness for C7 at the concrete unknown intent string `"foo"`. -/
theorem C7_unknown_intent_fails_witness :
    ("foo" ∉ ["forecast_total_revenue", "forecast_large_revenue",
      "forecast_smb_revenue", "explain_assumptions"])
    ∧ (executeCalculation "foo" 12 noOverrides
        = .error (.valueError ("Unknown intent: " ++ "foo"))
      ∧ createForecast "foo" 12 noOverrides
        = { queryStatus := "failed", resultSaved := false, httpStatus := 400, response := none }
      ∧ (createForecast "foo" 12 noOverrides).queryStatus ≠ "completed") :=
  ⟨by decide, C7_unknown_intent_fails "foo" 12 noOverrides (by decide)⟩

/-- Claim C6 (code bug): the `forecast_total_revenue` branch never produces
the zipped `monthly_data` the claim describes.  Its first step,
`large_calculator.calculate(timeframe_months=..., **updated_assumptions["large_customer"])`,
splats a dict that contains the key `onboarding_ramp`, which
`LargeCustomerCalculator.calculate` does not accept, so Python raises
`TypeError` before any monthly data is computed; `create_forecast` turns it
into an HTTP 500 and marks the query `"failed"`.  (The repository's own test
`test_create_forecast_success` expects this intent to complete.) -/
theorem C6_total_revenue_raises_type_error (timeframe_months : ℕ)
    (overrides : AssumptionOverrides) :
    executeCalculation "forecast_total_revenue" timeframe_months overrides
      = .error (.typeError "onboarding_ramp")
    ∧ createForecast "forecast_total_revenue" timeframe_months overrides
      = { queryStatus := "failed", resultSaved := false, httpStatus := 500
        , response := none } := by
  have hcall : ∀ a, callLargeCalculate timeframe_months a
      = .error (.typeError "onboarding_ramp") := fun a => rfl
  have hexec : executeCalculation "forecast_total_revenue" timeframe_months overrides
      = .error (.typeError "onboarding_ramp") := by
    unfold executeCalculation
    rw [if_pos rfl, hcall]
  refine ⟨hexec, ?_⟩
  unfold createForecast
  rw [hexec]

/-- Claim C1 (amended): in every run of either calculator the month-`m`
churned figure equals the previous month's (unrounded) cumulative stock
times `churn_rate` — churn is applied to the stock before this month's
acquisitions land — and the new cumulative stock equals
`previous + new_customers - churned_customers` with NO clamping at zero
(the claimed `max(0, ...)` is absent from the code; the two coincide only
while the stock stays nonnegative, e.g. whenever `churn_rate ≤ 1` and
acquisitions are nonnegative).  The stock starts at `0` before month 1.
Stated on the unrounded loop values; the stored figures are their
2-decimal roundings. -/
theorem C1_stock_recurrence_amended :
    (∀ (c : LargeCustomerCalculator) (aO gO chO : Option ℚ) (n m : ℕ), m + 1 < n →
      ((c.calculate n aO gO chO).getD (m+1) LCMonth.zero).churned_raw
        = ((c.calculate n aO gO chO).getD m LCMonth.zero).cumulative_raw
          * ((c.calculate n aO gO chO).getD (m+1) LCMonth.zero).churn_rate
      ∧ ((c.calculate n aO gO chO).getD (m+1) LCMonth.zero).cumulative_raw
        = ((c.calculate n aO gO chO).getD m LCMonth.zero).cumulative_raw
          + ((c.calculate n aO gO chO).getD (m+1) LCMonth.zero).new_raw
          - ((c.calculate n aO gO chO).getD (m+1) LCMonth.zero).churned_raw)
    ∧ (∀ (c : LargeCustomerCalculator) (aO gO chO : Option ℚ) (n : ℕ), 0 < n →
      ((c.calculate n aO gO chO).getD 0 LCMonth.zero).churned_raw = 0
      ∧ ((c.calculate n aO gO chO).getD 0 LCMonth.zero).cumulative_raw
        = 0 + ((c.calculate n aO gO chO).getD 0 LCMonth.zero).new_raw
          - ((c.calculate n aO gO chO).getD 0 LCMonth.zero).churned_raw)
    ∧ (∀ (c : SMBCalculator) (aO sO cacO convO gO chO : Option ℚ) (n m : ℕ), m + 1 < n →
      ((c.calculate n aO sO cacO convO gO chO).getD (m+1) SMBMonth.zero).churned_raw
        = ((c.calculate n aO sO cacO convO gO chO).getD m SMBMonth.zero).cumulative_raw
          * ((c.calculate n aO sO cacO convO gO chO).getD (m+1) SMBMonth.zero).churn_rate
      ∧ ((c.calculate n aO sO cacO convO gO chO).getD (m+1) SMBMonth.zero).cumulative_raw
        = ((c.calculate n aO sO cacO convO gO chO).getD m SMBMonth.zero).cumulative_raw
          + ((c.calculate n aO sO cacO convO gO chO).getD (m+1) SMBMonth.zero).new_raw
          - ((c.calculate n aO sO cacO convO gO chO).getD (m+1) SMBMonth.zero).churned_raw)
    ∧ (∀ (c : SMBCalculator) (aO sO cacO convO gO chO : Option ℚ) (n : ℕ), 0 < n →
      ((c.calculate n aO sO cacO convO gO chO).getD 0 SMBMonth.zero).churned_raw = 0
      ∧ ((c.calculate n aO sO cacO convO gO chO).getD 0 SMBMonth.zero).cumulative_raw
        = 0 + ((c.calculate n aO sO cacO convO gO chO).getD 0 SMBMonth.zero).new_raw
          - ((c.calculate n aO sO cacO convO gO chO).getD 0 SMBMonth.zero).churned_raw) := by
  refine ⟨?_, ?_, ?_, ?_⟩
  · intro c aO gO chO n m hm
    rw [lc_calculate_getD c n aO gO chO (m+1) hm,
      lc_calculate_getD c n aO gO chO m (by omega)]
    exact ⟨rfl, rfl⟩
  · intro c aO gO chO n hn
    rw [lc_calculate_getD c n aO gO chO 0 hn]
    constructor
    · show lcCumRaw c _ _ 0 * _ = 0
      rw [show lcCumRaw c (pyOr gO c.default_growth_rate) (pyOr chO c.default_churn_rate) 0 = 0
        from rfl, zero_mul]
    · rfl
  · intro c aO sO cacO convO gO chO n m hm
    rw [smb_calculate_getD c n aO sO cacO convO gO chO (m+1) hm,
      smb_calculate_getD c n aO sO cacO convO gO chO m (by omega)]
    exact ⟨rfl, rfl⟩
  · intro c aO sO cacO convO gO chO n hn
    rw [smb_calculate_getD c n aO sO cacO convO gO chO 0 hn]
    constructor
    · show smbCumRaw _ _ _ _ _ 0 * _ = 0
      rw [show smbCumRaw (pyOr sO c.default_marketing_spend) (pyOr cacO c.default_cac)
        (pyOr convO c.default_conversion_rate) (pyOr gO c.default_growth_rate)
        (pyOr chO c.default_churn_rate) 0 = 0 from rfl, zero_mul]
    · rfl

/-- Counterexample to C1 as stated: with an explicit `churn_rate = 3`
override the enterprise stock goes to `1 + 1 - 3 = -1` in month 2, while
the claimed `max(0, previous + new - churned)` is `0` — the code has no
clamp at zero. -/
theorem C1_max_clamp_counterexample :
    ((large_calculator.calculate 2 none none (some 3)).getD 1 LCMonth.zero).cumulative_customers
      = -1
    ∧ ((large_calculator.calculate 2 none none (some 3)).getD 1
        LCMonth.zero).cumulative_customers
      ≠ max 0
        (((large_calculator.calculate 2 none none (some 3)).getD 0
            LCMonth.zero).cumulative_customers
          + ((large_calculator.calculate 2 none none (some 3)).getD 1
              LCMonth.zero).new_customers
          - ((large_calculator.calculate 2 none none (some 3)).getD 1
              LCMonth.zero).churned_customers) := by
  decide

/-- Witness for the amended C1, at 3 months of both calculators under
default parameters, months 1 and 2. -/
theorem C1_stock_recurrence_amended_witness :
    ((0:ℕ) + 1 < 3 ∧ (0:ℕ) < 3)
    ∧ (((large_calculator.calculate 3 none none none).getD 1 LCMonth.zero).churned_raw
        = ((large_calculator.calculate 3 none none none).getD 0 LCMonth.zero).cumulative_raw
          * ((large_calculator.calculate 3 none none none).getD 1 LCMonth.zero).churn_rate
      ∧ ((large_calculator.calculate 3 none none none).getD 1 LCMonth.zero).cumulative_raw
        = ((large_calculator.calculate 3 none none none).getD 0 LCMonth.zero).cumulative_raw
          + ((large_calculator.calculate 3 none none none).getD 1 LCMonth.zero).new_raw
          - ((large_calculator.calculate 3 none none none).getD 1 LCMonth.zero).churned_raw)
    ∧ (((large_calculator.calculate 3 none none none).getD 0 LCMonth.zero).churned_raw = 0
      ∧ ((large_calculator.calculate 3 none none none).getD 0 LCMonth.zero).cumulative_raw
        = 0 + ((large_calculator.calculate 3 none none none).getD 0 LCMonth.zero).new_raw
          - ((large_calculator.calculate 3 none none none).getD 0 LCMonth.zero).churned_raw)
    ∧ (((smb_calculator.calculate 3 none none none none none none).getD 1
          SMBMonth.zero).churned_raw
        = ((smb_calculator.calculate 3 none none none none none none).getD 0
            SMBMonth.zero).cumulative_raw
          * ((smb_calculator.calculate 3 none none none none none none).getD 1
              SMBMonth.zero).churn_rate
      ∧ ((smb_calculator.calculate 3 none none none none none none).getD 1
          SMBMonth.zero).cumulative_raw
        = ((smb_calculator.calculate 3 none none none none none none).getD 0
            SMBMonth.zero).cumulative_raw
          + ((smb_calculator.calculate 3 none none none none none none).getD 1
              SMBMonth.zero).new_raw
          - ((smb_calculator.calculate 3 none none none none none none).getD 1
              SMBMonth.zero).churned_raw)
    ∧ (((smb_calculator.calculate 3 none none none none none none).getD 0
          SMBMonth.zero).churned_raw = 0
      ∧ ((smb_calculator.calculate 3 none none none none none none).getD 0
          SMBMonth.zero).cumulative_raw
        = 0 + ((smb_calculator.calculate 3 none none none none none none).getD 0
            SMBMonth.zero).new_raw
          - ((smb_calculator.calculate 3 none none none none none none).getD 0
              SMBMonth.zero).churned_raw) :=
  ⟨⟨by norm_num, by norm_num⟩,
    C1_stock_recurrence_amended.1 large_calculator none none none 3 0 (by norm_num),
    C1_stock_recurrence_amended.2.1 large_calculator none none none 3 (by norm_num),
    C1_stock_recurrence_amended.2.2.1 smb_calculator none none none none none none 3 0
      (by norm_num),
    C1_stock_recurrence_amended.2.2.2 smb_calculator none none none none none none 3
      (by norm_num)⟩

/-- Claim C4 (amended): in every snapshot of either calculator the unrounded
revenue equals the unrounded post-acquisition, post-churn stock of that
month times the effective arpu, and the STORED revenue figure is that
product rounded to two decimals.  The stored `cumulative_customers` figure
is the same stock rounded separately, so stored revenue generally differs
from stored-stock × arpu by up to `arpu/200` (see the counterexample) —
far beyond floating-point tolerance. -/
theorem C4_revenue_amended :
    (∀ (c : LargeCustomerCalculator) (aO gO chO : Option ℚ) (n m : ℕ),
      ((c.calculate n aO gO chO).getD m LCMonth.zero).revenue_raw
        = ((c.calculate n aO gO chO).getD m LCMonth.zero).cumulative_raw
          * ((c.calculate n aO gO chO).getD m LCMonth.zero).arpu
      ∧ ((c.calculate n aO gO chO).getD m LCMonth.zero).revenue
        = round2 (((c.calculate n aO gO chO).getD m LCMonth.zero).revenue_raw)
      ∧ ((c.calculate n aO gO chO).getD m LCMonth.zero).cumulative_customers
        = round2 (((c.calculate n aO gO chO).getD m LCMonth.zero).cumulative_raw))
    ∧ (∀ (c : SMBCalculator) (aO sO cacO convO gO chO : Option ℚ) (n m : ℕ),
      ((c.calculate n aO sO cacO convO gO chO).getD m SMBMonth.zero).revenue_raw
        = ((c.calculate n aO sO cacO convO gO chO).getD m SMBMonth.zero).cumulative_raw
          * ((c.calculate n aO sO cacO convO gO chO).getD m SMBMonth.zero).arpu
      ∧ ((c.calculate n aO sO cacO convO gO chO).getD m SMBMonth.zero).revenue
        = round2 (((c.calculate n aO sO cacO convO gO chO).getD m SMBMonth.zero).revenue_raw)
      ∧ ((c.calculate n aO sO cacO convO gO chO).getD m SMBMonth.zero).cumulative_customers
        = round2 (((c.calculate n aO sO cacO convO gO chO).getD m
            SMBMonth.zero).cumulative_raw)) := by
  constructor
  · intro c aO gO chO n m
    rcases Nat.lt_or_ge m n with hm | hm
    · rw [lc_calculate_getD c n aO gO chO m hm]
      exact ⟨rfl, rfl, rfl⟩
    · have hlen : (c.calculate n aO gO chO).length ≤ m := by
        rw [lc_calculate_length]
        exact hm
      rw [List.getD_eq_default _ _ hlen]
      refine ⟨by norm_num [LCMonth.zero], ?_, ?_⟩
      · rw [show LCMonth.zero.revenue_raw = 0 from rfl, round2_zero]
        rfl
      · rw [show LCMonth.zero.cumulative_raw = 0 from rfl, round2_zero]
        rfl
  · intro c aO sO cacO convO gO chO n m
    rcases Nat.lt_or_ge m n with hm | hm
    · rw [smb_calculate_getD c n aO sO cacO convO gO chO m hm]
      exact ⟨rfl, rfl, rfl⟩
    · have hlen : (c.calculate n aO sO cacO convO gO chO).length ≤ m := by
        rw [smb_calculate_length]
        exact hm
      rw [List.getD_eq_default _ _ hlen]
      refine ⟨by norm_num [SMBMonth.zero], ?_, ?_⟩
      · rw [show SMBMonth.zero.revenue_raw = 0 from rfl, round2_zero]
        rfl
      · rw [show SMBMonth.zero.cumulative_raw = 0 from rfl, round2_zero]
        rfl

/-- Month-3 snapshot of the enterprise calculator under defaults, used by
the C4 counterexample. -/
def c4_month3 : LCMonth := (large_calculator.calculate 3 none none none).getD 2 LCMonth.zero

/-- Counterexample to C4 as stated: under defaults, month 3 of the
enterprise calculator stores `revenue = 65674.65` (round of
`3.9404 × 16667`) but `cumulative_customers × arpu = 3.94 × 16667
= 65667.98`, a gap of `6.67` — the stored revenue is computed from the
unrounded stock, not from the stored (rounded) stock field. -/
theorem C4_stored_field_counterexample :
    c4_month3.revenue = 6567465/100
    ∧ c4_month3.cumulative_customers = 394/100
    ∧ c4_month3.arpu = 16667
    ∧ c4_month3.revenue ≠ c4_month3.cumulative_customers * c4_month3.arpu := by
  decide

/-- The 6-month default run of the SMB calculator used by Scenario B of
claim C3. -/
def c3_run : List SMBMonth := smb_calculator.calculate 6 none none none none none none

/-- Claim C3: in every month of the SMB projector the (unrounded) new
customer count equals `(marketing_spend / cac) * conversion_rate`, where
`marketing_spend` is the month's spend AFTER compounding: month 1 uses the
uncompounded spend, and every later month with `growth_rate > 0` compounds
the previous month's spend by `(1 + growth_rate)` before leads and new
customers are computed (with `growth_rate ≤ 0` the spend never changes).
The calculator stores no leads figure; `leads = marketing_spend / cac`, so
Scenario B's month-1 `leads = 160` appears below as `spend / cac = 160`.
Under defaults (6 months), month 1 has `new_customers = 72`,
`cumulative_customers = 72`, `revenue = 360000`, and month 2 has
`marketing_spend = 206000`. -/
theorem C3_smb_acquisition_rule :
    (∀ (c : SMBCalculator) (aO sO cacO convO gO chO : Option ℚ) (n m : ℕ), m < n →
      ((c.calculate n aO sO cacO convO gO chO).getD m SMBMonth.zero).new_raw
        = ((c.calculate n aO sO cacO convO gO chO).getD m SMBMonth.zero).spend_raw
          / ((c.calculate n aO sO cacO convO gO chO).getD m SMBMonth.zero).cac
          * ((c.calculate n aO sO cacO convO gO chO).getD m SMBMonth.zero).conversion_rate)
    ∧ (∀ (c : SMBCalculator) (aO sO cacO convO gO chO : Option ℚ) (n : ℕ), 0 < n →
      ((c.calculate n aO sO cacO convO gO chO).getD 0 SMBMonth.zero).spend_raw
        = pyOr sO c.default_marketing_spend)
    ∧ (∀ (c : SMBCalculator) (aO sO cacO convO gO chO : Option ℚ) (n m : ℕ), m + 1 < n →
      0 < pyOr gO c.default_growth_rate →
      ((c.calculate n aO sO cacO convO gO chO).getD (m+1) SMBMonth.zero).spend_raw
        = ((c.calculate n aO sO cacO convO gO chO).getD m SMBMonth.zero).spend_raw
          * (1 + ((c.calculate n aO sO cacO convO gO chO).getD (m+1)
              SMBMonth.zero).growth_rate))
    ∧ (∀ (c : SMBCalculator) (aO sO cacO convO gO chO : Option ℚ) (n m : ℕ), m + 1 < n →
      ¬ 0 < pyOr gO c.default_growth_rate →
      ((c.calculate n aO sO cacO convO gO chO).getD (m+1) SMBMonth.zero).spend_raw
        = ((c.calculate n aO sO cacO convO gO chO).getD m SMBMonth.zero).spend_raw)
    ∧ (c3_run.getD 0 SMBMonth.zero).spend_raw / (c3_run.getD 0 SMBMonth.zero).cac = 160
    ∧ (c3_run.getD 0 SMBMonth.zero).new_customers = 72
    ∧ (c3_run.getD 0 SMBMonth.zero).cumulative_customers = 72
    ∧ (c3_run.getD 0 SMBMonth.zero).revenue = 360000
    ∧ (c3_run.getD 1 SMBMonth.zero).marketing_spend = 206000 := by
  refine ⟨?_, ?_, ?_, ?_, ?_, ?_, ?_, ?_, ?_⟩
  · intro c aO sO cacO convO gO chO n m hm
    rw [smb_calculate_getD c n aO sO cacO convO gO chO m hm]
    rfl
  · intro c aO sO cacO convO gO chO n hn
    rw [smb_calculate_getD c n aO sO cacO convO gO chO 0 hn]
    show smbSpendRaw (pyOr sO c.default_marketing_spend) (pyOr gO c.default_growth_rate) 1
      = pyOr sO c.default_marketing_spend
    rw [smbSpendRaw, if_neg (fun hc => absurd hc.1 (by omega))]
    rfl
  · intro c aO sO cacO convO gO chO n m hm hg
    rw [smb_calculate_getD c n aO sO cacO convO gO chO (m+1) hm,
      smb_calculate_getD c n aO sO cacO convO gO chO m (by omega)]
    show smbSpendRaw _ _ (m+2) = _
    rw [smbSpendRaw, if_pos ⟨by omega, hg⟩]
    rfl
  · intro c aO sO cacO convO gO chO n m hm hg
    rw [smb_calculate_getD c n aO sO cacO convO gO chO (m+1) hm,
      smb_calculate_getD c n aO sO cacO convO gO chO m (by omega)]
    show smbSpendRaw (pyOr sO c.default_marketing_spend) (pyOr gO c.default_growth_rate) (m+2)
      = (smbSnapAt (pyOr aO c.default_arpu) (pyOr sO c.default_marketing_spend)
          (pyOr cacO c.default_cac) (pyOr convO c.default_conversion_rate)
          (pyOr gO c.default_growth_rate) (pyOr chO c.default_churn_rate) (m+1)).spend_raw
    rw [smbSpendRaw, if_neg (fun hc => hg hc.2)]
    rfl
  · decide
  · decide
  · decide
  · decide
  · decide

/-- Witness for the quantified parts of C3: default SMB calculator, 3
months, months 1 and 2, once with the default (positive) growth rate and
once with an explicit negative growth override. -/
theorem C3_smb_acquisition_rule_witness :
    ((0:ℕ) < 3 ∧ (0:ℕ) + 1 < 3
      ∧ 0 < pyOr none smb_calculator.default_growth_rate
      ∧ ¬ 0 < pyOr (some (-1/100)) smb_calculator.default_growth_rate)
    ∧ ((smb_calculator.calculate 3 none none none none none none).getD 0
          SMBMonth.zero).new_raw
      = ((smb_calculator.calculate 3 none none none none none none).getD 0
          SMBMonth.zero).spend_raw
        / ((smb_calculator.calculate 3 none none none none none none).getD 0
            SMBMonth.zero).cac
        * ((smb_calculator.calculate 3 none none none none none none).getD 0
            SMBMonth.zero).conversion_rate
    ∧ ((smb_calculator.calculate 3 none none none none none none).getD 0
        SMBMonth.zero).spend_raw = pyOr none smb_calculator.default_marketing_spend
    ∧ ((smb_calculator.calculate 3 none none none none none none).getD 1
        SMBMonth.zero).spend_raw
      = ((smb_calculator.calculate 3 none none none none none none).getD 0
          SMBMonth.zero).spend_raw
        * (1 + ((smb_calculator.calculate 3 none none none none none none).getD 1
            SMBMonth.zero).growth_rate)
    ∧ ((smb_calculator.calculate 3 none none none none (some (-1/100)) none).getD 1
        SMBMonth.zero).spend_raw
      = ((smb_calculator.calculate 3 none none none none (some (-1/100)) none).getD 0
          SMBMonth.zero).spend_raw :=
  ⟨⟨by norm_num, by norm_num, by norm_num [pyOr, smb_calculator],
      by norm_num [pyOr, smb_calculator]⟩,
    C3_smb_acquisition_rule.1 smb_calculator none none none none none none 3 0 (by norm_num),
    C3_smb_acquisition_rule.2.1 smb_calculator none none none none none none 3 (by norm_num),
    C3_smb_acquisition_rule.2.2.1 smb_calculator none none none none none none 3 0
      (by norm_num) (by norm_num [pyOr, smb_calculator]),
    C3_smb_acquisition_rule.2.2.2.1 smb_calculator none none none none (some (-1/100)) none 3 0
      (by norm_num) (by norm_num [pyOr, smb_calculator])⟩

/-- The 12-month default run of the enterprise calculator used by Scenario A
of claim C2. -/
def c2_run : List LCMonth := large_calculator.calculate 12 none none none

/-- Claim C2 (amended): for every month `m ≤ 11` the enterprise projector
takes `new_customers` from `onboarding_ramp[m-1]` regardless of
`growth_rate`; for every month `m ≥ 12` the month's (unrounded) new-customer
count equals the PREVIOUS MONTH'S STORED (2-decimal-rounded) figure times
`(1 + growth_rate)` — not the previous unrounded count, since the source
reads `monthly_data[-1]["new_customers"]` — and the stored figure is that
product rounded again.  (For `m = 12` the two agree because the ramp values
are integers; from `m = 13` on the claimed unrounded recurrence fails, see
the counterexample.)  Under defaults (12 months): month 1 has
`new_customers = 1`, `cumulative_customers = 1`, `revenue = 16667`; month 11
uses ramp value 9; month 12 extrapolates month 11's count by the growth
rate, `9 × 1.05 = 9.45`. -/
theorem C2_enterprise_acquisition_amended :
    (∀ (aO gO chO : Option ℚ) (n m : ℕ), 1 ≤ m → m ≤ 11 → m ≤ n →
      ((large_calculator.calculate n aO gO chO).getD (m-1) LCMonth.zero).new_customers
        = large_calculator.onboarding_ramp.getD (m-1) 0)
    ∧ (∀ (aO gO chO : Option ℚ) (n m : ℕ), 12 ≤ m → m ≤ n →
      ((large_calculator.calculate n aO gO chO).getD (m-1) LCMonth.zero).new_raw
        = ((large_calculator.calculate n aO gO chO).getD (m-2) LCMonth.zero).new_customers
          * (1 + ((large_calculator.calculate n aO gO chO).getD (m-1)
              LCMonth.zero).growth_rate)
      ∧ ((large_calculator.calculate n aO gO chO).getD (m-1) LCMonth.zero).new_customers
        = round2 (((large_calculator.calculate n aO gO chO).getD (m-1)
            LCMonth.zero).new_raw))
    ∧ (c2_run.getD 0 LCMonth.zero).new_customers = 1
    ∧ (c2_run.getD 0 LCMonth.zero).cumulative_customers = 1
    ∧ (c2_run.getD 0 LCMonth.zero).revenue = 16667
    ∧ (c2_run.getD 10 LCMonth.zero).new_customers = 9
    ∧ (c2_run.getD 11 LCMonth.zero).new_customers = 945/100
    ∧ (c2_run.getD 11 LCMonth.zero).new_raw
      = (c2_run.getD 10 LCMonth.zero).new_customers * (1 + 5/100) := by
  refine ⟨?_, ?_, ?_, ?_, ?_, ?_, ?_, ?_⟩
  · intro aO gO chO n m hm1 hm11 hmn
    cases m with
    | zero => omega
    | succ k =>
      have hk : k ≤ 10 := by omega
      rw [show k + 1 - 1 = k from rfl,
        lc_calculate_getD large_calculator n aO gO chO k (by omega)]
      show round2 (lcNewRaw large_calculator (pyOr gO large_calculator.default_growth_rate)
        (k+1)) = large_calculator.onboarding_ramp.getD k 0
      have hramp : lcNewRaw large_calculator (pyOr gO large_calculator.default_growth_rate)
          (k+1) = large_calculator.onboarding_ramp.getD k 0 := by
        rw [lcNewRaw,
          if_pos (show k + 1 ≤ large_calculator.onboarding_ramp.length by
            show k + 1 ≤ 11
            omega)]
      rw [hramp]
      interval_cases k <;> decide
  · intro aO gO chO n m hm12 hmn
    obtain ⟨k, rfl⟩ : ∃ k, m = k + 12 := ⟨m - 12, by omega⟩
    have e1 : k + 12 - 1 = (k + 10) + 1 := by omega
    have e2 : k + 12 - 2 = (k + 9) + 1 := by omega
    rw [e1, e2,
      lc_calculate_getD large_calculator n aO gO chO ((k+10)+1)
        (by omega),
      lc_calculate_getD large_calculator n aO gO chO ((k+9)+1)
        (by omega)]
    constructor
    · show lcNewRaw large_calculator (pyOr gO large_calculator.default_growth_rate) (k+12)
        = round2 (lcNewRaw large_calculator (pyOr gO large_calculator.default_growth_rate)
            (k+11)) * (1 + pyOr gO large_calculator.default_growth_rate)
      cases k with
      | zero =>
        rw [show (0:ℕ) + 12 = 12 from rfl, lcNewRaw,
          if_neg (show ¬ 12 ≤ large_calculator.onboarding_ramp.length by
            show ¬ 12 ≤ 11
            omega),
          if_pos (show (12:ℕ) = large_calculator.onboarding_ramp.length + 1 from rfl)]
        rw [show round2 (lcNewRaw large_calculator
            (pyOr gO large_calculator.default_growth_rate) 11) = 9 by
          rw [show lcNewRaw large_calculator
              (pyOr gO large_calculator.default_growth_rate) 11
              = large_calculator.onboarding_ramp.getD 10 0 by
            rw [lcNewRaw, if_pos (show 11 ≤ large_calculator.onboarding_ramp.length from
              by decide)]]
          decide]
        rfl
      | succ j =>
        rw [show j + 1 + 12 = (j + 12) + 1 from rfl, lcNewRaw,
          if_neg (show ¬ j + 12 + 1 ≤ large_calculator.onboarding_ramp.length by
            show ¬ j + 12 + 1 ≤ 11
            omega),
          if_neg (show ¬ j + 12 + 1 = large_calculator.onboarding_ramp.length + 1 by
            show ¬ j + 12 + 1 = 11 + 1
            omega)]
    · rfl
  · rw [show c2_run.getD 0 LCMonth.zero
      = lcSnapAt large_calculator 16667 (5/100) (2/100) 1 from
      lc_calculate_getD large_calculator 12 none none none 0
        (by norm_num)]
    decide
  · rw [show c2_run.getD 0 LCMonth.zero
      = lcSnapAt large_calculator 16667 (5/100) (2/100) 1 from
      lc_calculate_getD large_calculator 12 none none none 0
        (by norm_num)]
    decide
  · rw [show c2_run.getD 0 LCMonth.zero
      = lcSnapAt large_calculator 16667 (5/100) (2/100) 1 from
      lc_calculate_getD large_calculator 12 none none none 0
        (by norm_num)]
    decide
  · rw [show c2_run.getD 10 LCMonth.zero
      = lcSnapAt large_calculator 16667 (5/100) (2/100) 11 from
      lc_calculate_getD large_calculator 12 none none none 10
        (by norm_num)]
    decide
  · rw [show c2_run.getD 11 LCMonth.zero
      = lcSnapAt large_calculator 16667 (5/100) (2/100) 12 from
      lc_calculate_getD large_calculator 12 none none none 11
        (by norm_num)]
    decide
  · rw [show c2_run.getD 11 LCMonth.zero
      = lcSnapAt large_calculator 16667 (5/100) (2/100) 12 from
      lc_calculate_getD large_calculator 12 none none none 11
        (by norm_num),
      show c2_run.getD 10 LCMonth.zero
      = lcSnapAt large_calculator 16667 (5/100) (2/100) 11 from
      lc_calculate_getD large_calculator 12 none none none 10
        (by norm_num)]
    decide

/-- The 14-month default run of the enterprise calculator used by the C2
counterexample. -/
def c2_run14 : List LCMonth := large_calculator.calculate 14 none none none

/-- Counterexample to C2 as stated: under defaults the stored month-13
new-customer figure is `round2(9.45 × 1.05) = 9.92`, NOT the claimed
`new_customers(12) × 1.05 = 9.9225`; and even on the unrounded values,
month 14 computes `round2(9.9225) × 1.05 = 10.416` instead of the claimed
`9.9225 × 1.05 = 10.418625`, because growth is applied to the stored
(rounded) previous figure. -/
theorem C2_growth_rounding_counterexample :
    (c2_run14.getD 11 LCMonth.zero).new_customers = 945/100
    ∧ (c2_run14.getD 12 LCMonth.zero).new_customers = 992/100
    ∧ (c2_run14.getD 12 LCMonth.zero).new_customers
      ≠ (c2_run14.getD 11 LCMonth.zero).new_customers
        * (1 + (c2_run14.getD 12 LCMonth.zero).growth_rate)
    ∧ (c2_run14.getD 13 LCMonth.zero).new_raw
      ≠ (c2_run14.getD 12 LCMonth.zero).new_raw
        * (1 + (c2_run14.getD 13 LCMonth.zero).growth_rate) := by
  have h11 : c2_run14.getD 11 LCMonth.zero
      = lcSnapAt large_calculator 16667 (5/100) (2/100) 12 :=
    lc_calculate_getD large_calculator 14 none none none 11 (by norm_num)
  have h12 : c2_run14.getD 12 LCMonth.zero
      = lcSnapAt large_calculator 16667 (5/100) (2/100) 13 :=
    lc_calculate_getD large_calculator 14 none none none 12 (by norm_num)
  have h13 : c2_run14.getD 13 LCMonth.zero
      = lcSnapAt large_calculator 16667 (5/100) (2/100) 14 :=
    lc_calculate_getD large_calculator 14 none none none 13 (by norm_num)
  rw [h11, h12, h13]
  refine ⟨by decide, by decide, by decide, by decide⟩

/-- Witness for the quantified parts of the amended C2: month 1 (ramp) and
month 12 (first growth month) of the 12-month default run. -/
theorem C2_enterprise_acquisition_amended_witness :
    ((1:ℕ) ≤ 1 ∧ (1:ℕ) ≤ 11 ∧ (1:ℕ) ≤ 12 ∧ (12:ℕ) ≤ 12)
    ∧ ((large_calculator.calculate 12 none none none).getD (1-1) LCMonth.zero).new_customers
      = large_calculator.onboarding_ramp.getD (1-1) 0
    ∧ (((large_calculator.calculate 12 none none none).getD (12-1) LCMonth.zero).new_raw
      = ((large_calculator.calculate 12 none none none).getD (12-2)
          LCMonth.zero).new_customers
        * (1 + ((large_calculator.calculate 12 none none none).getD (12-1)
            LCMonth.zero).growth_rate)
      ∧ ((large_calculator.calculate 12 none none none).getD (12-1)
          LCMonth.zero).new_customers
        = round2 (((large_calculator.calculate 12 none none none).getD (12-1)
            LCMonth.zero).new_raw)) :=
  ⟨⟨by norm_num, by norm_num, by norm_num, by norm_num⟩,
    C2_enterprise_acquisition_amended.1 none none none 12 1 (by norm_num) (by norm_num)
      (by norm_num),
    C2_enterprise_acquisition_amended.2.1 none none none 12 12 (by norm_num) (by norm_num)⟩

/-- Claim C5: with an effective churn rate in `[0, 1)` and nonnegative
acquisition parameters (nonnegative ramp entries and growth rate for the
enterprise profile; nonnegative spend, positive cac, nonnegative conversion
rate for the SMB profile) the stored `cumulative_customers` figure of every
snapshot of either calculator is nonnegative, for every horizon.  The
hypotheses constrain the effective (post-`or`-defaulting) parameters. -/
theorem C5_cumulative_customers_nonneg :
    (∀ (c : LargeCustomerCalculator) (aO gO chO : Option ℚ) (n m : ℕ),
      0 ≤ pyOr chO c.default_churn_rate → pyOr chO c.default_churn_rate < 1 →
      0 ≤ pyOr gO c.default_growth_rate → (∀ x ∈ c.onboarding_ramp, 0 ≤ x) →
      0 ≤ ((c.calculate n aO gO chO).getD m LCMonth.zero).cumulative_customers)
    ∧ (∀ (c : SMBCalculator) (aO sO cacO convO gO chO : Option ℚ) (n m : ℕ),
      0 ≤ pyOr chO c.default_churn_rate → pyOr chO c.default_churn_rate < 1 →
      0 ≤ pyOr sO c.default_marketing_spend → 0 < pyOr cacO c.default_cac →
      0 ≤ pyOr convO c.default_conversion_rate →
      0 ≤ ((c.calculate n aO sO cacO convO gO chO).getD m
          SMBMonth.zero).cumulative_customers) := by
  constructor
  · intro c aO gO chO n m hch0 hch1 hg hramp
    rcases Nat.lt_or_ge m n with hm | hm
    · rw [lc_calculate_getD c n aO gO chO m hm]
      exact round2_nonneg (cumRec_nonneg (lcNewRaw c (pyOr gO c.default_growth_rate))
        (pyOr chO c.default_churn_rate) (le_of_lt hch1)
        (lcNewRaw_nonneg c (pyOr gO c.default_growth_rate) hg hramp) (m+1))
    · have hlen : (c.calculate n aO gO chO).length ≤ m := by
        rw [lc_calculate_length]
        exact hm
      rw [List.getD_eq_default _ _ hlen]
      exact le_refl 0
  · intro c aO sO cacO convO gO chO n m hch0 hch1 hs hcac hconv
    rcases Nat.lt_or_ge m n with hm | hm
    · rw [smb_calculate_getD c n aO sO cacO convO gO chO m hm]
      exact round2_nonneg (cumRec_nonneg
        (smbNewRaw (pyOr sO c.default_marketing_spend) (pyOr cacO c.default_cac)
          (pyOr convO c.default_conversion_rate) (pyOr gO c.default_growth_rate))
        (pyOr chO c.default_churn_rate) (le_of_lt hch1)
        (smbNewRaw_nonneg (pyOr sO c.default_marketing_spend) (pyOr cacO c.default_cac)
          (pyOr convO c.default_conversion_rate) (pyOr gO c.default_growth_rate)
          hs (le_of_lt hcac) hconv) (m+1))
    · have hlen : (c.calculate n aO sO cacO convO gO chO).length ≤ m := by
        rw [smb_calculate_length]
        exact hm
      rw [List.getD_eq_default _ _ hlen]
      exact le_refl 0

/-- Witness for C5: both default calculators over 12 months, month 4. -/
theorem C5_cumulative_customers_nonneg_witness :
    (0 ≤ pyOr none large_calculator.default_churn_rate
      ∧ pyOr none large_calculator.default_churn_rate < 1
      ∧ 0 ≤ pyOr none large_calculator.default_growth_rate
      ∧ (∀ x ∈ large_calculator.onboarding_ramp, 0 ≤ x)
      ∧ 0 ≤ pyOr none smb_calculator.default_churn_rate
      ∧ pyOr none smb_calculator.default_churn_rate < 1
      ∧ 0 ≤ pyOr none smb_calculator.default_marketing_spend
      ∧ 0 < pyOr none smb_calculator.default_cac
      ∧ 0 ≤ pyOr none smb_calculator.default_conversion_rate)
    ∧ 0 ≤ ((large_calculator.calculate 12 none none none).getD 3
        LCMonth.zero).cumulative_customers
    ∧ 0 ≤ ((smb_calculator.calculate 12 none none none none none none).getD 3
        SMBMonth.zero).cumulative_customers :=
  ⟨⟨by norm_num [pyOr, large_calculator], by norm_num [pyOr, large_calculator],
      by norm_num [pyOr, large_calculator], by decide,
      by norm_num [pyOr, smb_calculator], by norm_num [pyOr, smb_calculator],
      by norm_num [pyOr, smb_calculator], by norm_num [pyOr, smb_calculator],
      by norm_num [pyOr, smb_calculator]⟩,
    C5_cumulative_customers_nonneg.1 large_calculator none none none 12 3
      (by norm_num [pyOr, large_calculator]) (by norm_num [pyOr, large_calculator])
      (by norm_num [pyOr, large_calculator]) (by decide),
    C5_cumulative_customers_nonneg.2 smb_calculator none none none none none none 12 3
      (by norm_num [pyOr, smb_calculator]) (by norm_num [pyOr, smb_calculator])
      (by norm_num [pyOr, smb_calculator]) (by norm_num [pyOr, smb_calculator])
      (by norm_num [pyOr, smb_calculator])⟩

/-- Claim C9: for either calculator, with overrides satisfying
`churn_rate < growth_rate`, `0 ≤ churn_rate < 1` and `arpu > 0` and every
other parameter at its default, the stored revenue sequence is
non-decreasing across the horizon.  (An explicit `churn_rate = 0` override
falls back to the stored default churn rate — still inside `[0, 1)` — by
the `or`-defaulting quirk of C10; the conclusion is unaffected.) -/
theorem C9_revenue_monotone :
    (∀ (a g ch : ℚ) (n m : ℕ), ch < g → 0 ≤ ch → ch < 1 → 0 < a → m + 1 < n →
      ((large_calculator.calculate n (some a) (some g) (some ch)).getD m
          LCMonth.zero).revenue
        ≤ ((large_calculator.calculate n (some a) (some g) (some ch)).getD (m+1)
            LCMonth.zero).revenue)
    ∧ (∀ (a g ch : ℚ) (n m : ℕ), ch < g → 0 ≤ ch → ch < 1 → 0 < a → m + 1 < n →
      ((smb_calculator.calculate n (some a) none none none (some g) (some ch)).getD m
          SMBMonth.zero).revenue
        ≤ ((smb_calculator.calculate n (some a) none none none (some g) (some ch)).getD (m+1)
            SMBMonth.zero).revenue) := by
  constructor
  · intro a g ch n m hcg hch0 hch1 ha hm
    have hg : 0 < g := lt_of_le_of_lt hch0 hcg
    have hga : pyOr (some g) large_calculator.default_growth_rate = g := by
      simp [pyOr, hg.ne']
    have haa : pyOr (some a) large_calculator.default_arpu = a := by
      simp [pyOr, ha.ne']
    have hch01 : 0 ≤ pyOr (some ch) large_calculator.default_churn_rate
        ∧ pyOr (some ch) large_calculator.default_churn_rate ≤ 1 := by
      by_cases h0 : ch = 0
      · rw [show pyOr (some ch) large_calculator.default_churn_rate
            = large_calculator.default_churn_rate by simp [pyOr, h0]]
        norm_num [large_calculator]
      · rw [show pyOr (some ch) large_calculator.default_churn_rate = ch by
          simp [pyOr, h0]]
        exact ⟨hch0, le_of_lt hch1⟩
    rw [lc_calculate_getD large_calculator n (some a) (some g)
        (some ch) m (by omega),
      lc_calculate_getD large_calculator n (some a) (some g)
        (some ch) (m+1) hm, hga, haa]
    show round2 (lcCumRaw large_calculator g
        (pyOr (some ch) large_calculator.default_churn_rate) (m+1) * a)
      ≤ round2 (lcCumRaw large_calculator g
        (pyOr (some ch) large_calculator.default_churn_rate) (m+2) * a)
    apply round2_mono
    apply mul_le_mul_of_nonneg_right _ (le_of_lt ha)
    exact cumRec_mono (lcNewRaw large_calculator g)
      (pyOr (some ch) large_calculator.default_churn_rate) hch01.1 hch01.2
      (lcNewRaw_nonneg large_calculator g (le_of_lt hg) (by decide))
      (lcNewRaw_mono g (le_of_lt hg)) (m+1)
  · intro a g ch n m hcg hch0 hch1 ha hm
    have hg : 0 < g := lt_of_le_of_lt hch0 hcg
    have hga : pyOr (some g) smb_calculator.default_growth_rate = g := by
      simp [pyOr, hg.ne']
    have haa : pyOr (some a) smb_calculator.default_arpu = a := by
      simp [pyOr, ha.ne']
    have hch01 : 0 ≤ pyOr (some ch) smb_calculator.default_churn_rate
        ∧ pyOr (some ch) smb_calculator.default_churn_rate ≤ 1 := by
      by_cases h0 : ch = 0
      · rw [show pyOr (some ch) smb_calculator.default_churn_rate
            = smb_calculator.default_churn_rate by simp [pyOr, h0]]
        norm_num [smb_calculator]
      · rw [show pyOr (some ch) smb_calculator.default_churn_rate = ch by
          simp [pyOr, h0]]
        exact ⟨hch0, le_of_lt hch1⟩
    rw [smb_calculate_getD smb_calculator n (some a) none none none (some g)
        (some ch) m (by omega),
      smb_calculate_getD smb_calculator n (some a) none none none (some g)
        (some ch) (m+1) hm, hga, haa]
    show round2 (smbCumRaw (pyOr none smb_calculator.default_marketing_spend)
        (pyOr none smb_calculator.default_cac) (pyOr none smb_calculator.default_conversion_rate)
        g (pyOr (some ch) smb_calculator.default_churn_rate) (m+1) * a)
      ≤ round2 (smbCumRaw (pyOr none smb_calculator.default_marketing_spend)
        (pyOr none smb_calculator.default_cac) (pyOr none smb_calculator.default_conversion_rate)
        g (pyOr (some ch) smb_calculator.default_churn_rate) (m+2) * a)
    apply round2_mono
    apply mul_le_mul_of_nonneg_right _ (le_of_lt ha)
    exact cumRec_mono
      (smbNewRaw (pyOr none smb_calculator.default_marketing_spend)
        (pyOr none smb_calculator.default_cac)
        (pyOr none smb_calculator.default_conversion_rate) g)
      (pyOr (some ch) smb_calculator.default_churn_rate) hch01.1 hch01.2
      (smbNewRaw_nonneg (pyOr none smb_calculator.default_marketing_spend)
        (pyOr none smb_calculator.default_cac)
        (pyOr none smb_calculator.default_conversion_rate) g
        (by norm_num [pyOr, smb_calculator]) (by norm_num [pyOr, smb_calculator])
        (by norm_num [pyOr, smb_calculator]))
      (smbNewRaw_mono (pyOr none smb_calculator.default_marketing_spend)
        (pyOr none smb_calculator.default_cac)
        (pyOr none smb_calculator.default_conversion_rate) g
        (by norm_num [pyOr, smb_calculator]) (by norm_num [pyOr, smb_calculator])
        (by norm_num [pyOr, smb_calculator])) (m+1)

/-- Witness for C9: both calculators at `arpu = 16667`, `growth = 0.05`,
`churn = 0.02`, over 3 months, months 1 and 2. -/
theorem C9_revenue_monotone_witness :
    ((2:ℚ)/100 < 5/100 ∧ (0:ℚ) ≤ 2/100 ∧ (2:ℚ)/100 < 1 ∧ (0:ℚ) < 16667 ∧ (0:ℕ) + 1 < 3)
    ∧ ((large_calculator.calculate 3 (some 16667) (some (5/100)) (some (2/100))).getD 0
        LCMonth.zero).revenue
      ≤ ((large_calculator.calculate 3 (some 16667) (some (5/100)) (some (2/100))).getD 1
          LCMonth.zero).revenue
    ∧ ((smb_calculator.calculate 3 (some 16667) none none none (some (5/100))
        (some (2/100))).getD 0 SMBMonth.zero).revenue
      ≤ ((smb_calculator.calculate 3 (some 16667) none none none (some (5/100))
          (some (2/100))).getD 1 SMBMonth.zero).revenue :=
  ⟨⟨by norm_num, by norm_num, by norm_num, by norm_num, by norm_num⟩,
    C9_revenue_monotone.1 16667 (5/100) (2/100) 3 0 (by norm_num) (by norm_num)
      (by norm_num) (by norm_num) (by norm_num),
    C9_revenue_monotone.2 16667 (5/100) (2/100) 3 0 (by norm_num) (by norm_num)
      (by norm_num) (by norm_num) (by norm_num)⟩

end

end FinSynth
